import Mathlib

/-!
Shallow embedding of `src/flow_log_parser.py` (a batch flow-log
validator/classifier) together with proofs about its specification.

The Python program is modelled function by function:

* `build_port_protocol_dict` (lines 20-37)   : protocol reference loader,
* `load_lookup_table`        (lines 40-67)   : lookup table loader,
* `validate_flow_log_entry`  (lines 70-104)  : record validator,
* `process_flow_logs`        (lines 107-131) : aggregation loop
  (the final report serialization, lines 133-153, is file I/O and carries
  no aggregate state, so only the in-memory aggregates are modelled).

Machine-level Python behaviour is modelled explicitly: `str.split()`,
`str.strip()`, `str.isdigit`, `int(...)` (including its `ValueError`
message), `ipaddress.ip_address` (CPython's IPv4/IPv6 textual parsers),
and `dict` as an insertion-ordered association list with
overwrite-in-place semantics.  Exceptions are modelled with `Except`:
`validate_body` is the body of the `try:` block of the validator and
`validate_flow_log_entry` is the surrounding `try/except`.
-/

namespace FlowLog

/-- Python whitespace for `str.split()` / `str.strip()`:
space, tab, newline, carriage return, vertical tab, form feed. -/
def pyIsSpace (c : Char) : Bool :=
  c == ' ' || c == '\t' || c == '\n' || c == '\r' || c == '\x0b' || c == '\x0c'

/-- ASCII decimal digit test (the character class accepted by `int()`). -/
def isDigitChar (c : Char) : Bool :=
  c == '0' || c == '1' || c == '2' || c == '3' || c == '4' ||
  c == '5' || c == '6' || c == '7' || c == '8' || c == '9'

/-- Numeric value of an ASCII decimal digit (0 for non-digits). -/
def digitVal (c : Char) : Nat :=
  match c with
  | '0' => 0 | '1' => 1 | '2' => 2 | '3' => 3 | '4' => 4
  | '5' => 5 | '6' => 6 | '7' => 7 | '8' => 8 | '9' => 9
  | _ => 0

/-- ASCII lower-casing of one character, as `str.lower()` does for the
ASCII range (the program's data is ASCII). -/
def lowerChar (c : Char) : Char :=
  if c = 'A' then 'a' else if c = 'B' then 'b' else if c = 'C' then 'c'
  else if c = 'D' then 'd' else if c = 'E' then 'e' else if c = 'F' then 'f'
  else if c = 'G' then 'g' else if c = 'H' then 'h' else if c = 'I' then 'i'
  else if c = 'J' then 'j' else if c = 'K' then 'k' else if c = 'L' then 'l'
  else if c = 'M' then 'm' else if c = 'N' then 'n' else if c = 'O' then 'o'
  else if c = 'P' then 'p' else if c = 'Q' then 'q' else if c = 'R' then 'r'
  else if c = 'S' then 's' else if c = 'T' then 't' else if c = 'U' then 'u'
  else if c = 'V' then 'v' else if c = 'W' then 'w' else if c = 'X' then 'x'
  else if c = 'Y' then 'y' else if c = 'Z' then 'z' else c

/-- Value of an ASCII hexadecimal digit, `none` for other characters. -/
def hexDigitVal (c : Char) : Option Nat :=
  if isDigitChar c then some (digitVal c)
  else if c = 'a' ∨ c = 'A' then some 10
  else if c = 'b' ∨ c = 'B' then some 11
  else if c = 'c' ∨ c = 'C' then some 12
  else if c = 'd' ∨ c = 'D' then some 13
  else if c = 'e' ∨ c = 'E' then some 14
  else if c = 'f' ∨ c = 'F' then some 15
  else none

/-- Python `str.lower()` (ASCII model). -/
def pyLower (s : String) : String := String.mk (s.data.map lowerChar)

/-- Drop leading Python whitespace from a character list. -/
def lstripChars (cs : List Char) : List Char := cs.dropWhile pyIsSpace

/-- Drop trailing Python whitespace from a character list. -/
def rstripChars (cs : List Char) : List Char :=
  (cs.reverse.dropWhile pyIsSpace).reverse

/-- Both-ends strip on a character list. -/
def stripChars (cs : List Char) : List Char := lstripChars (rstripChars cs)

/-- Python `str.strip()` with no argument. -/
def pyStrip (s : String) : String := String.mk (stripChars s.data)

/-- Worker for `str.split()` with no argument: `acc` is the current token,
reversed.  Runs of whitespace separate tokens; empty tokens are never
produced. -/
def wsTokensAux : List Char → List Char → List String
  | [], acc => if acc = [] then [] else [String.mk acc.reverse]
  | c :: rest, acc =>
    if pyIsSpace c then
      if acc = [] then wsTokensAux rest []
      else String.mk acc.reverse :: wsTokensAux rest []
    else wsTokensAux rest (c :: acc)

/-- Python `str.split()` with no argument: split on runs of whitespace,
discarding empty pieces. -/
def pySplit (s : String) : List String := wsTokensAux s.data []

/-- Python `str.isdigit()` (ASCII model): non-empty and all digits. -/
def pyIsDigit (s : String) : Bool :=
  !s.data.isEmpty && s.data.all isDigitChar

/-- Boolean test that `pre` is a list-wise prefix of the second list. -/
def prefOf : List Char → List Char → Bool
  | [], _ => true
  | _ :: _, [] => false
  | a :: as, b :: bs => a == b && prefOf as bs

/-- Python `str.startswith`. -/
def strStartsWith (s pre : String) : Bool := prefOf pre.data s.data

/-- Substring occurrence test on character lists (haystack first). -/
def hasSubstrL : List Char → List Char → Bool
  | [], needle => needle.isEmpty
  | c :: rest, needle => prefOf needle (c :: rest) || hasSubstrL rest needle

/-- Python `needle in hay` on strings. -/
def hasSubstr (hay needle : String) : Bool := hasSubstrL hay.data needle.data

/-- Digit-run parser for `int()`, continuing after an initial digit whose
value is in `acc`.  A single underscore is permitted between digits, as in
Python's integer literal grammar. -/
def pyIntDigitsGo : List Char → Nat → Option Nat
  | [], acc => some acc
  | c :: rest, acc =>
    if isDigitChar c then pyIntDigitsGo rest (acc * 10 + digitVal c)
    else if c = '_' then
      match rest with
      | [] => none
      | d :: rest2 =>
        if isDigitChar d then pyIntDigitsGo rest2 (acc * 10 + digitVal d)
        else none
    else none

/-- Digit-run parser for `int()`: at least one digit, underscores only
between digits. -/
def pyIntDigits : List Char → Option Nat
  | [] => none
  | c :: rest =>
    if isDigitChar c then pyIntDigitsGo rest (digitVal c) else none

/-- Sign-and-digits part of `int()`: an optional single sign precedes a
non-empty ASCII digit run. -/
def pyIntParseChars : List Char → Option Int
  | [] => none
  | c :: rest =>
    if c = '+' then (pyIntDigits rest).map (fun n => Int.ofNat n)
    else if c = '-' then (pyIntDigits rest).map (fun n => -Int.ofNat n)
    else (pyIntDigits (c :: rest)).map (fun n => Int.ofNat n)

/-- Python `int(s)` on a string: surrounding whitespace is ignored, an
optional single sign precedes a non-empty ASCII digit run.  Returns `none`
where CPython raises `ValueError`. -/
def pyIntParse (s : String) : Option Int :=
  pyIntParseChars (stripChars s.data)

/-- The `ValueError` message of a failed `int(s)` call. -/
def intErrMsg (s : String) : String :=
  "invalid literal for int() with base 10: '" ++ s ++ "'"

/-- Python `int(s)` in the exception monad: a failed parse raises
`ValueError` with its message. -/
def pyIntE (s : String) : Except String Int :=
  match pyIntParse s with
  | some n => Except.ok n
  | none => Except.error (intErrMsg s)

/-- The generic reason produced by the validator's `except` clause when an
`int()` call inside it raises. -/
def genericReason (s : String) : String :=
  "Error in flow log validation: " ++ intErrMsg s

/-- Lookup in an insertion-ordered association list (Python `dict.get`):
each key occurs at most once in dictionaries built by `dinsert`, so the
first binding is the binding. -/
def dget {K V : Type} [DecidableEq K] : List (K × V) → K → Option V
  | [], _ => none
  | (k', v) :: rest, k => if k = k' then some v else dget rest k

/-- Python `dict` assignment `d[k] = v`: overwrite in place if the key is
present, else append at the end. -/
def dinsert {K V : Type} [DecidableEq K] : List (K × V) → K → V → List (K × V)
  | [], k, v => [(k, v)]
  | (k', v') :: rest, k, v =>
    if k = k' then (k, v) :: rest else (k', v') :: dinsert rest k v

/-- Sum of the counter values of an aggregate dictionary. -/
def sumVals {K : Type} (d : List (K × Nat)) : Nat := (d.map Prod.snd).sum

/-- Split a character list at every occurrence of `sep`, keeping empty
pieces (Python `str.split(sep)` for a one-character separator). -/
def splitOnChar (sep : Char) : List Char → List (List Char)
  | [] => [[]]
  | c :: rest =>
    match splitOnChar sep rest with
    | [] => [[]]
    | h :: t => if c = sep then [] :: h :: t else (c :: h) :: t

/-- String-level wrapper of `splitOnChar`. -/
def splitOnStr (sep : Char) (s : String) : List String :=
  (splitOnChar sep s.data).map String.mk

/-- One dotted-decimal octet, following CPython `IPv4Address._parse_octet`:
non-empty, ASCII digits only, at most 3 characters, no leading zero, and
value at most 255. -/
def parseOctet (s : String) : Option Nat :=
  match s.data with
  | [] => none
  | c :: rest =>
    if ¬ (c :: rest).all isDigitChar then none
    else if (c :: rest).length > 3 then none
    else if s ≠ "0" ∧ c = '0' then none
    else
      let v := (c :: rest).foldl (fun a d => a * 10 + digitVal d) 0
      if v > 255 then none else some v

/-- Numeric value of a dotted-quad IPv4 string, `none` if malformed
(CPython `IPv4Address._ip_int_from_string`). -/
def parseV4Int (s : String) : Option Nat :=
  match (splitOnStr '.' s).mapM parseOctet with
  | some [a, b, c, d] => some (((a * 256 + b) * 256 + c) * 256 + d)
  | _ => none

/-- Syntactic IPv4 address test. -/
def is_ipv4 (s : String) : Bool := (parseV4Int s).isSome

/-- Accumulating parser for one IPv6 hextet body. -/
def parseHextetGo : List Char → Nat → Option Nat
  | [], acc => some acc
  | c :: rest, acc =>
    match hexDigitVal c with
    | some v => parseHextetGo rest (acc * 16 + v)
    | none => none

/-- One IPv6 hextet (CPython `_parse_hextet`): one to four hexadecimal
digits. -/
def parseHextet (s : String) : Option Nat :=
  if s.data.length = 0 ∨ s.data.length > 4 then none
  else parseHextetGo s.data 0

/-- Lowercase hexadecimal rendering of a number, as CPython's
`'%x' % n` produces when re-encoding an embedded IPv4 tail. -/
def hexStrOf (n : Nat) : String := String.mk (Nat.toDigits 16 n)

/-- Replace a trailing dotted-quad part with its two hextet renderings
(CPython `IPv6Address._ip_int_from_string`, IPv4-mapped tail). -/
def expandTrailingV4 (parts : List String) : Option (List String) :=
  match parts.getLast? with
  | none => none
  | some last =>
    if last.data.contains '.' then
      match parseV4Int last with
      | none => none
      | some v =>
        some (parts.dropLast ++ [hexStrOf (v / 65536), hexStrOf (v % 65536)])
    else some parts

/-- Validity of the colon-separated parts of an IPv6 address, following
CPython's `skip_index` algorithm for `::`. -/
def checkHextetParts (parts : List String) : Bool :=
  let n := parts.length
  let interior := (parts.drop 1).dropLast
  let empties := interior.count ""
  if empties > 1 then false
  else if empties = 1 then
    let skip := interior.indexOf "" + 1
    let lo0 := n - skip - 1
    if (parts.getD 0 "") = "" ∧ skip ≠ 1 then false
    else if parts.getLastD "" = "" ∧ lo0 ≠ 1 then false
    else
      let hi := if (parts.getD 0 "") = "" then skip - 1 else skip
      let lo := if parts.getLastD "" = "" then lo0 - 1 else lo0
      if hi + lo ≥ 8 then false
      else
        ((parts.take hi).all fun p => (parseHextet p).isSome) &&
        ((parts.drop (n - lo)).all fun p => (parseHextet p).isSome)
  else
    (n == 8) && !((parts.getD 0 "") == "") && !(parts.getLastD "" == "") &&
    (parts.all fun p => (parseHextet p).isSome)

/-- Core IPv6 textual syntax (no zone id). -/
def is_ipv6_core (addr : String) : Bool :=
  let parts := splitOnStr ':' addr
  if parts.length < 3 then false
  else
    match expandTrailingV4 parts with
    | none => false
    | some ps => checkHextetParts ps

/-- IPv6 textual syntax including an optional non-empty `%zone` suffix. -/
def is_ipv6 (s : String) : Bool :=
  match splitOnStr '%' s with
  | [addr] => is_ipv6_core addr
  | [addr, zone] => !zone.isEmpty && is_ipv6_core addr
  | _ => false

/-- Model of `ipaddress.ip_address(s)` succeeding: the string is a valid
IPv4 or IPv6 textual address. -/
def is_ip_address (s : String) : Bool := is_ipv4 s || is_ipv6 s

/-- Body of the `try:` block of `validate_flow_log_entry`
(lines 72-102), as a function of the already-split field list.  Field
names from the tuple unpacking at line 76 map to positions:
version 0, account_id 1, interface_id 2, srcaddr 3, dstaddr 4, srcport 5,
dstport 6, protocol 7, packets 8, bytes 9, start 10, end 11, action 12,
log_status 13.  `int()` calls raise through the `Except` monad; the IP
checks have their own `try/except ValueError` in the source and so appear
as a plain test. -/
def validate_fields (port_protocol_dict : List (Int × String))
    (fields : List String) : Except String (Bool × String) :=
  if fields.length ≠ 14 then Except.ok (false, "Incorrect number of fields")
  else if fields.getD 0 "" ≠ "2" then Except.ok (false, "Invalid version")
  else if ¬(pyIsDigit (fields.getD 1 "") = true ∧ (fields.getD 1 "").length = 12) then
    Except.ok (false, "Invalid account ID")
  else if ¬(strStartsWith (fields.getD 2 "") "eni-" = true ∧
      (fields.getD 2 "").length = 12) then
    Except.ok (false, "Invalid interface ID")
  else if ¬(is_ip_address (fields.getD 3 "") = true ∧
      is_ip_address (fields.getD 4 "") = true) then
    Except.ok (false, "Invalid IP address")
  else
    match pyIntE (fields.getD 5 "") with
    | Except.error e => Except.error e
    | Except.ok srcport =>
      if ¬(0 ≤ srcport ∧ srcport ≤ 65535) then
        Except.ok (false, "Invalid port number")
      else
        match pyIntE (fields.getD 6 "") with
        | Except.error e => Except.error e
        | Except.ok dstport =>
          if ¬(0 ≤ dstport ∧ dstport ≤ 65535) then
            Except.ok (false, "Invalid port number")
          else
            match pyIntE (fields.getD 7 "") with
            | Except.error e => Except.error e
            | Except.ok protocol =>
              if (dget port_protocol_dict protocol).isSome = false then
                Except.ok (false, "Invalid protocol")
              else
                match pyIntE (fields.getD 8 "") with
                | Except.error e => Except.error e
                | Except.ok packets =>
                  if packets < 0 then
                    Except.ok (false, "Invalid packets or bytes count")
                  else
                    match pyIntE (fields.getD 9 "") with
                    | Except.error e => Except.error e
                    | Except.ok nbytes =>
                      if nbytes < 0 then
                        Except.ok (false, "Invalid packets or bytes count")
                      else if pyIsDigit (fields.getD 10 "") = false then
                        Except.ok (false, "Invalid timestamps")
                      else if pyIsDigit (fields.getD 11 "") = false then
                        Except.ok (false, "Invalid timestamps")
                      else
                        match pyIntE (fields.getD 11 "") with
                        | Except.error e => Except.error e
                        | Except.ok tEnd =>
                          match pyIntE (fields.getD 10 "") with
                          | Except.error e => Except.error e
                          | Except.ok tStart =>
                            if ¬(tEnd ≥ tStart) then
                              Except.ok (false, "Invalid timestamps")
                            else if ¬(fields.getD 12 "" = "ACCEPT" ∨
                                fields.getD 12 "" = "REJECT") then
                              Except.ok (false, "Invalid action")
                            else if ¬(fields.getD 13 "" = "OK" ∨
                                fields.getD 13 "" = "NODATA" ∨
                                fields.getD 13 "" = "SKIPDATA") then
                              Except.ok (false, "Invalid log status")
                            else Except.ok (true, "Valid entry")

/-- The whole `try:` block: `entry.strip().split()` then the field
checks. -/
def validate_body (port_protocol_dict : List (Int × String))
    (entry : String) : Except String (Bool × String) :=
  validate_fields port_protocol_dict (pySplit (pyStrip entry))

/-- `validate_flow_log_entry` (lines 70-104): the `try/except Exception`
wrapper converts any escaped exception `e` into
`(False, f"Error in flow log validation: {e}")`. -/
def validate_flow_log_entry (port_protocol_dict : List (Int × String))
    (entry : String) : Bool × String :=
  match validate_body port_protocol_dict entry with
  | Except.ok r => r
  | Except.error e => (false, "Error in flow log validation: " ++ e)

/-- `build_port_protocol_dict` (lines 20-37), one CSV row at a time.  A row
is the pair of its `Decimal` and `Keyword` cells; the module-level
accumulator dictionary is passed explicitly (it starts empty; `main` calls
the loader once).  Rows whose stripped `Decimal` contains a hyphen are
skipped before `int()` is attempted; a failed `int()` is caught and the
row skipped. -/
def build_port_protocol_dict (acc : List (Int × String)) :
    List (String × String) → List (Int × String)
  | [] => acc
  | row :: rest =>
    if (pyStrip row.1).data.contains '-' then
      build_port_protocol_dict acc rest
    else
      match pyIntParse (pyStrip row.1) with
      | some key =>
        build_port_protocol_dict
          (dinsert acc key (pyLower (pyStrip row.2))) rest
      | none => build_port_protocol_dict acc rest

/-- `load_lookup_table` (lines 40-67), one data row at a time (the header
row has already been consumed by `next(reader)`).  A row with a column
count other than 3 is skipped; a failed `int()` on column 0 is caught and
the row skipped; an out-of-range port is skipped; otherwise
`(port, lowercased protocol) -> lowercased tag` is inserted. -/
def load_lookup_table_go (acc : List ((Int × String) × String)) :
    List (List String) → List ((Int × String) × String)
  | [] => acc
  | row :: rest =>
    if row.length ≠ 3 then load_lookup_table_go acc rest
    else
      match pyIntParse (pyStrip (row.getD 0 "")) with
      | none => load_lookup_table_go acc rest
      | some dstport =>
        if ¬(0 ≤ dstport ∧ dstport ≤ 65535) then load_lookup_table_go acc rest
        else
          load_lookup_table_go
            (dinsert acc (dstport, pyLower (pyStrip (row.getD 1 "")))
              (pyLower (pyStrip (row.getD 2 "")))) rest

/-- `load_lookup_table` starting from the empty dictionary. -/
def load_lookup_table (rows : List (List String)) :
    List ((Int × String) × String) :=
  load_lookup_table_go [] rows

/-- The entry contributed by one lookup-table data row, written from the
specification's description (section 4.2): exactly 3 columns, column 0
parses as an integer port in [0, 65535], key is the port paired with the
trimmed lowercased protocol, value is the trimmed lowercased tag; any
other row contributes nothing. -/
def lookupRowSpec (row : List String) : Option ((Int × String) × String) :=
  if row.length = 3 then
    match pyIntParse (pyStrip (row.getD 0 "")) with
    | some p =>
      if 0 ≤ p ∧ p ≤ 65535 then
        some ((p, pyLower (pyStrip (row.getD 1 ""))),
          pyLower (pyStrip (row.getD 2 "")))
      else none
    | none => none
  else none

/-- The entry contributed by one protocol reference row, written from the
specification's description (section 4.1): skip when the trimmed
`Decimal` contains a hyphen or does not parse as an integer, otherwise
map the integer to the trimmed lowercased `Keyword`. -/
def protoRowSpec (row : String × String) : Option (Int × String) :=
  if (pyStrip row.1).data.contains '-' then none
  else (pyIntParse (pyStrip row.1)).map
    (fun k => (k, pyLower (pyStrip row.2)))

/-- Protocol-name resolution of `process_flow_logs` line 122:
`port_protocol_dict.get(protocol_number, 'unknown').lower()`. -/
def resolveProtocol (port_protocol_dict : List (Int × String)) (n : Int) :
    String :=
  pyLower ((dget port_protocol_dict n).getD "unknown")

/-- Tag resolution of `process_flow_logs` line 123:
`lookup_table.get((dstport, protocol), 'untagged')`. -/
def resolveTag (lookup_table : List ((Int × String) × String))
    (k : Int × String) : String :=
  (dget lookup_table k).getD "untagged"

/-- One iteration of the `process_flow_logs` loop (lines 112-131) on the
aggregate state `(tag_counts, port_protocol_counts)`: skip invalid lines,
otherwise re-split the line, resolve protocol name and tag, and bump both
counters.  `int(parts[6])` and `int(parts[7])` cannot raise here because
the validator has already accepted the line; their values are read with a
default of 0. -/
def process_step (port_protocol_dict : List (Int × String))
    (lookup_table : List ((Int × String) × String))
    (st : List (String × Nat) × List ((Int × String) × Nat))
    (line : String) :
    List (String × Nat) × List ((Int × String) × Nat) :=
  if (validate_flow_log_entry port_protocol_dict line).1 = true then
    let parts := pySplit line
    let dstport : Int := (pyIntParse (parts.getD 6 "")).getD 0
    let protocol_number : Int := (pyIntParse (parts.getD 7 "")).getD 0
    let protocol := resolveProtocol port_protocol_dict protocol_number
    let tag := resolveTag lookup_table (dstport, protocol)
    let tag_counts :=
      if (dget st.1 tag).isSome = true then
        dinsert st.1 tag ((dget st.1 tag).getD 0 + 1)
      else dinsert st.1 tag 1
    let port_protocol_counts :=
      dinsert st.2 (dstport, protocol)
        ((dget st.2 (dstport, protocol)).getD 0 + 1)
    (tag_counts, port_protocol_counts)
  else st

/-- The aggregation phase of `process_flow_logs` (lines 107-131): fold the
per-line step over the file's lines starting from empty aggregates.  The
subsequent report serialization (lines 133-153) is plain file output of
the returned state and is not modelled. -/
def process_flow_logs (port_protocol_dict : List (Int × String))
    (lookup_table : List ((Int × String) × String))
    (lines : List String) :
    List (String × Nat) × List ((Int × String) × Nat) :=
  lines.foldl (process_step port_protocol_dict lookup_table) ([], [])

/-- Number of lines of the file that the validator accepts. -/
def acceptedCount (port_protocol_dict : List (Int × String))
    (lines : List String) : Nat :=
  (lines.filter
    (fun l => (validate_flow_log_entry port_protocol_dict l).1)).length

/-- Rule 2 of section 4.3: the version field is the literal "2". -/
@[reducible] def ruleVersion (fields : List String) : Prop := fields.getD 0 "" = "2"

/-- Rule 3: the account id is all-digit and exactly 12 characters. -/
@[reducible] def ruleAccount (fields : List String) : Prop :=
  pyIsDigit (fields.getD 1 "") = true ∧ (fields.getD 1 "").length = 12

/-- Rule 4: the interface id starts with "eni-" and has 12 characters. -/
@[reducible] def ruleInterface (fields : List String) : Prop :=
  strStartsWith (fields.getD 2 "") "eni-" = true ∧
  (fields.getD 2 "").length = 12

/-- Rule 5: both addresses are syntactically valid IPv4/IPv6. -/
@[reducible] def ruleIPs (fields : List String) : Prop :=
  is_ip_address (fields.getD 3 "") = true ∧
  is_ip_address (fields.getD 4 "") = true

/-- A string parses as an integer in [0, 65535]. -/
def intInRange (s : String) : Prop :=
  ∃ n : Int, pyIntParse s = some n ∧ 0 ≤ n ∧ n ≤ 65535

instance (s : String) : Decidable (intInRange s) :=
  match h : pyIntParse s with
  | some n =>
    if hr : 0 ≤ n ∧ n ≤ 65535 then
      Decidable.isTrue ⟨n, h, hr⟩
    else
      Decidable.isFalse (fun ⟨m, hm, h1, h2⟩ => by
        rw [h] at hm; injection hm with he; exact hr (he ▸ ⟨h1, h2⟩))
  | none =>
    Decidable.isFalse (fun ⟨m, hm, _⟩ => by
      rw [h] at hm; exact Option.noConfusion hm)

/-- A string parses as a non-negative integer. -/
def nonNegInt (s : String) : Prop :=
  ∃ n : Int, pyIntParse s = some n ∧ 0 ≤ n

instance (s : String) : Decidable (nonNegInt s) :=
  match h : pyIntParse s with
  | some n =>
    if hr : 0 ≤ n then Decidable.isTrue ⟨n, h, hr⟩
    else
      Decidable.isFalse (fun ⟨m, hm, h1⟩ => by
        rw [h] at hm; injection hm with he; exact hr (he ▸ h1))
  | none =>
    Decidable.isFalse (fun ⟨m, hm, _⟩ => by
      rw [h] at hm; exact Option.noConfusion hm)

/-- Rule 6: both port fields parse as integers in [0, 65535]. -/
@[reducible] def rulePorts (fields : List String) : Prop :=
  intInRange (fields.getD 5 "") ∧ intInRange (fields.getD 6 "")

/-- Rule 7: the protocol field parses as an integer that is a key of the
protocol table. -/
def ruleProtocol (port_protocol_dict : List (Int × String))
    (fields : List String) : Prop :=
  ∃ n : Int, pyIntParse (fields.getD 7 "") = some n ∧
    (dget port_protocol_dict n).isSome = true

instance (pd : List (Int × String)) (fields : List String) :
    Decidable (ruleProtocol pd fields) :=
  match h : pyIntParse (fields.getD 7 "") with
  | some n =>
    if hr : (dget pd n).isSome = true then Decidable.isTrue ⟨n, h, hr⟩
    else
      Decidable.isFalse (fun ⟨m, hm, h1⟩ => by
        rw [h] at hm; injection hm with he; exact hr (he ▸ h1))
  | none =>
    Decidable.isFalse (fun ⟨m, hm, _⟩ => by
      rw [h] at hm; exact Option.noConfusion hm)

/-- Rule 8: packets and bytes parse as non-negative integers. -/
@[reducible] def ruleCounts (fields : List String) : Prop :=
  nonNegInt (fields.getD 8 "") ∧ nonNegInt (fields.getD 9 "")

/-- Rule 9: both timestamps are all-digit and end ≥ start numerically. -/
@[reducible] def ruleTimestamps (fields : List String) : Prop :=
  pyIsDigit (fields.getD 10 "") = true ∧
  pyIsDigit (fields.getD 11 "") = true ∧
  (pyIntParse (fields.getD 11 "")).getD 0 ≥ (pyIntParse (fields.getD 10 "")).getD 0

/-- Rule 10: the action field is ACCEPT or REJECT. -/
@[reducible] def ruleAction (fields : List String) : Prop :=
  fields.getD 12 "" = "ACCEPT" ∨ fields.getD 12 "" = "REJECT"

/-- Rule 11: the log status field is OK, NODATA or SKIPDATA. -/
@[reducible] def ruleStatus (fields : List String) : Prop :=
  fields.getD 13 "" = "OK" ∨ fields.getD 13 "" = "NODATA" ∨
  fields.getD 13 "" = "SKIPDATA"

/-- Protocol table used by the concrete test lines: protocol 6 is tcp. -/
def pdTcp : List (Int × String) := [(6, "tcp")]

/-- A line satisfying all eleven validation rules. -/
def lineValid : String :=
  "2 123456789012 eni-12345678 10.0.0.1 10.0.0.2 1024 443 6 10 500 100 200 ACCEPT OK"

/-- A second all-rules-valid line (different addresses and counters). -/
def lineValid2 : String :=
  "2 123456789012 eni-12345678 10.0.0.3 10.0.0.4 1024 443 6 9 400 100 200 ACCEPT OK"

/-- A third all-rules-valid line (srcport 2048). -/
def lineValid3 : String :=
  "2 123456789012 eni-12345678 10.0.0.1 10.0.0.2 2048 443 6 10 500 100 200 ACCEPT OK"

/-- A fourth all-rules-valid line (dstport 53, REJECT/NODATA). -/
def lineValid4 : String :=
  "2 123456789012 eni-12345678 10.0.0.1 10.0.0.2 44000 53 6 7 320 100 200 REJECT NODATA"

/-- A line whose only rule violation is a non-integer source port. -/
def lineBadSrcport : String :=
  "2 123456789012 eni-12345678 10.0.0.1 10.0.0.2 abc 443 6 10 500 100 200 ACCEPT OK"

/-- A line whose only rule violation is a non-integer destination port. -/
def lineBadDstport : String :=
  "2 123456789012 eni-12345678 10.0.0.1 10.0.0.2 1024 xyz 6 10 500 100 200 ACCEPT OK"

/-- A line whose only rule violation is an out-of-range destination
port. -/
def lineDstportRange : String :=
  "2 123456789012 eni-12345678 10.0.0.1 10.0.0.2 1024 70000 6 10 500 100 200 ACCEPT OK"

/-- A line whose only rule violation is a non-integer packet count. -/
def lineBadPackets : String :=
  "2 123456789012 eni-12345678 10.0.0.1 10.0.0.2 1024 443 6 p9 500 100 200 ACCEPT OK"

/-- A line whose only rule violation is a negative packet count. -/
def linePacketsNeg : String :=
  "2 123456789012 eni-12345678 10.0.0.1 10.0.0.2 1024 443 6 -3 500 100 200 ACCEPT OK"

/-- A line whose only rule violation is a non-integer byte count. -/
def lineBadBytes : String :=
  "2 123456789012 eni-12345678 10.0.0.1 10.0.0.2 1024 443 6 10 zz 100 200 ACCEPT OK"

/-- Tokenizing a run of pure whitespace only flushes the pending token. -/
theorem wsTokensAux_allws : ∀ (w : List Char),
    (∀ c ∈ w, pyIsSpace c = true) → ∀ acc,
    wsTokensAux w acc = if acc = [] then [] else [String.mk acc.reverse]
  | [], _, acc => by simp [wsTokensAux]
  | c :: rest, hw, acc => by
    have hc : pyIsSpace c = true := hw c (by simp)
    have hrest : ∀ d ∈ rest, pyIsSpace d = true :=
      fun d hd => hw d (by simp [hd])
    have ih := wsTokensAux_allws rest hrest
    by_cases ha : acc = [] <;> simp [wsTokensAux, hc, ha, ih]

/-- Appending trailing whitespace does not change the token list. -/
theorem wsTokensAux_append_ws : ∀ (cs w : List Char),
    (∀ c ∈ w, pyIsSpace c = true) → ∀ acc,
    wsTokensAux (cs ++ w) acc = wsTokensAux cs acc
  | [], w, hw, acc => by
    rw [List.nil_append, wsTokensAux_allws w hw acc]
    simp [wsTokensAux]
  | c :: rest, w, hw, acc => by
    have ih := wsTokensAux_append_ws rest w hw
    by_cases hc : pyIsSpace c <;> simp [wsTokensAux, hc, ih]

/-- Members of a `takeWhile` satisfy the predicate. -/
theorem takeWhile_prop {p : Char → Bool} : ∀ (l : List Char) (c : Char),
    c ∈ l.takeWhile p → p c = true
  | [], c, h => by simp [List.takeWhile] at h
  | a :: rest, c, h => by
    by_cases ha : p a
    · rw [List.takeWhile_cons_of_pos ha] at h
      rcases List.mem_cons.mp h with h1 | h1
      · exact h1 ▸ ha
      · exact takeWhile_prop rest c h1
    · rw [List.takeWhile_cons_of_neg (by simpa using ha)] at h
      exact absurd h (List.not_mem_nil c)

/-- Members of a `dropWhile` are members of the original list. -/
theorem dropWhile_subset {p : Char → Bool} : ∀ (l : List Char) (c : Char),
    c ∈ l.dropWhile p → c ∈ l
  | [], c, h => by simp [List.dropWhile] at h
  | a :: rest, c, h => by
    by_cases ha : p a
    · rw [List.dropWhile_cons_of_pos ha] at h
      exact List.mem_cons_of_mem a (dropWhile_subset rest c h)
    · rwa [List.dropWhile_cons_of_neg (by simpa using ha)] at h

/-- A right-strip splits the list into its result and a whitespace tail. -/
theorem rstrip_decomp (cs : List Char) :
    ∃ w, cs = rstripChars cs ++ w ∧ ∀ c ∈ w, pyIsSpace c = true := by
  refine ⟨(cs.reverse.takeWhile pyIsSpace).reverse, ?_, ?_⟩
  · have h : (List.dropWhile pyIsSpace cs.reverse).reverse ++
        (List.takeWhile pyIsSpace cs.reverse).reverse = cs := by
      rw [← List.reverse_append, List.takeWhile_append_dropWhile,
        List.reverse_reverse]
    exact h.symm
  · intro c hc
    exact takeWhile_prop _ _ (List.mem_reverse.mp hc)

/-- Leading whitespace does not change the token list. -/
theorem wsTokensAux_lstrip : ∀ (cs : List Char),
    wsTokensAux (lstripChars cs) [] = wsTokensAux cs []
  | [] => rfl
  | c :: rest => by
    by_cases hc : pyIsSpace c
    · have h1 : lstripChars (c :: rest) = lstripChars rest := by
        simp [lstripChars, List.dropWhile, hc]
      rw [h1, wsTokensAux_lstrip rest]
      simp [wsTokensAux, hc]
    · simp [lstripChars, List.dropWhile, hc]

/-- The `.strip()` before `.split()` in the validator is transparent:
`entry.strip().split() == entry.split()`. -/
theorem pySplit_pyStrip (s : String) : pySplit (pyStrip s) = pySplit s := by
  show wsTokensAux (stripChars s.data) [] = wsTokensAux s.data []
  unfold stripChars
  rw [wsTokensAux_lstrip]
  obtain ⟨w, hw, hall⟩ := rstrip_decomp s.data
  conv_rhs => rw [hw]
  rw [wsTokensAux_append_ws _ w hall]

/-- Lookup after insertion: the inserted key reads back the new value,
every other key is unchanged. -/
theorem dget_dinsert {K V : Type} [DecidableEq K] :
    ∀ (d : List (K × V)) (k k' : K) (v : V),
    dget (dinsert d k v) k' = if k' = k then some v else dget d k'
  | [], k, k', v => by simp [dget, dinsert]
  | (k0, v0) :: rest, k, k', v => by
    by_cases hk : k = k0
    · subst hk
      by_cases hk' : k' = k <;> simp [dinsert, dget, hk']
    · by_cases hk' : k' = k0
      · subst hk'
        have : ¬(k' = k) := fun h => hk (h ▸ rfl)
        simp [dinsert, hk, dget, this]
      · simp [dinsert, hk, dget, hk', dget_dinsert rest k k' v]

/-- Every binding of an insertion result is an old binding or the new
one. -/
theorem mem_dinsert {K V : Type} [DecidableEq K] :
    ∀ (d : List (K × V)) (k : K) (v : V) (x : K × V),
    x ∈ dinsert d k v → x ∈ d ∨ x = (k, v)
  | [], k, v, x, h => by
    simp [dinsert] at h
    exact Or.inr h
  | (k0, v0) :: rest, k, v, x, h => by
    by_cases hk : k = k0
    · subst hk
      simp only [dinsert, if_pos rfl] at h
      rcases List.mem_cons.mp h with h1 | h1
      · exact Or.inr h1
      · exact Or.inl (List.mem_cons_of_mem _ h1)
    · simp only [dinsert, if_neg hk] at h
      rcases List.mem_cons.mp h with h1 | h1
      · exact Or.inl (h1 ▸ List.mem_cons_self _ _)
      · rcases mem_dinsert rest k v x h1 with h2 | h2
        · exact Or.inl (List.mem_cons_of_mem _ h2)
        · exact Or.inr h2

/-- Incrementing one counter of an aggregate raises the total by one. -/
theorem sumVals_bump {K : Type} [DecidableEq K] :
    ∀ (d : List (K × Nat)) (k : K),
    sumVals (dinsert d k ((dget d k).getD 0 + 1)) = sumVals d + 1
  | [], k => by simp [sumVals, dinsert, dget]
  | (k0, v0) :: rest, k => by
    by_cases hk : k = k0
    · subst hk
      simp [sumVals, dinsert, dget]
      omega
    · have h1 : dget ((k0, v0) :: rest) k = dget rest k := by
        simp [dget, hk]
      rw [h1]
      have h2 : dinsert ((k0, v0) :: rest) k ((dget rest k).getD 0 + 1) =
          (k0, v0) :: dinsert rest k ((dget rest k).getD 0 + 1) := by
        simp [dinsert, hk]
      rw [h2]
      have ih := sumVals_bump rest k
      simp [sumVals] at ih ⊢
      omega

/-- The two-branch counter update of the source (lines 125-128) equals a
single insert of the incremented value. -/
theorem counter_update_eq {K : Type} [DecidableEq K]
    (d : List (K × Nat)) (k : K) :
    (if (dget d k).isSome = true then dinsert d k ((dget d k).getD 0 + 1)
     else dinsert d k 1) = dinsert d k ((dget d k).getD 0 + 1) := by
  cases h : dget d k <;> simp [h]

/-- Characters surviving `strip` come from the original list. -/
theorem mem_stripChars (c : Char) (cs : List Char)
    (h : c ∈ stripChars cs) : c ∈ cs := by
  unfold stripChars lstripChars rstripChars at h
  have h1 := dropWhile_subset _ _ h
  have h2 := List.mem_reverse.mp h1
  have h3 := dropWhile_subset _ _ h2
  exact List.mem_reverse.mp h3

/-- A string with no hyphen cannot parse to a negative integer. -/
theorem pyIntParse_nonneg (s : String) (n : Int)
    (hh : s.data.contains '-' = false) (hp : pyIntParse s = some n) :
    0 ≤ n := by
  unfold pyIntParse at hp
  cases hS : stripChars s.data with
  | nil =>
    rw [hS] at hp
    exact Option.noConfusion hp
  | cons c rest =>
    rw [hS] at hp
    simp only [pyIntParseChars] at hp
    by_cases hplus : c = '+'
    · rw [if_pos hplus] at hp
      cases hD : pyIntDigits rest with
      | none => simp [hD] at hp
      | some m =>
        simp [hD] at hp
        exact hp ▸ Int.ofNat_nonneg m
    · rw [if_neg hplus] at hp
      by_cases hminus : c = '-'
      · exfalso
        have hmem : ('-' : Char) ∈ stripChars s.data := by
          rw [hS]; exact hminus ▸ List.mem_cons_self c rest
        have hmem2 : ('-' : Char) ∈ s.data := mem_stripChars _ _ hmem
        have helem := List.elem_eq_true_of_mem hmem2
        rw [show s.data.contains '-' = s.data.elem '-' from rfl, helem] at hh
        exact Bool.noConfusion hh
      · rw [if_neg hminus] at hp
        cases hD : pyIntDigits (c :: rest) with
        | none => simp [hD] at hp
        | some m =>
          simp [hD] at hp
          exact hp ▸ Int.ofNat_nonneg m

/-- ASCII digits are not Python whitespace. -/
theorem digit_not_space (c : Char) (h : isDigitChar c = true) :
    pyIsSpace c = false := by
  simp [isDigitChar, or_assoc] at h
  rcases h with h | h | h | h | h | h | h | h | h | h <;> subst h <;> rfl

/-- ASCII digits are not sign characters. -/
theorem digit_ne_sign (c : Char) (h : isDigitChar c = true) :
    c ≠ '+' ∧ c ≠ '-' := by
  simp [isDigitChar, or_assoc] at h
  rcases h with h | h | h | h | h | h | h | h | h | h <;> subst h <;>
    exact ⟨by decide, by decide⟩

/-- Stripping a list with no whitespace is the identity. -/
theorem stripChars_of_nospace (cs : List Char)
    (hall : ∀ c ∈ cs, pyIsSpace c = false) : stripChars cs = cs := by
  have h1 : rstripChars cs = cs := by
    unfold rstripChars
    cases hrev : cs.reverse with
    | nil =>
      have : cs = [] := by
        have := congrArg List.reverse hrev
        simpa using this
      simp [this]
    | cons c t =>
      have hc : c ∈ cs := by
        rw [← List.mem_reverse, hrev]; exact List.mem_cons_self c t
      rw [List.dropWhile_cons_of_neg (by simp [hall c hc])]
      rw [← hrev, List.reverse_reverse]
  unfold stripChars
  rw [h1]
  unfold lstripChars
  cases cs with
  | nil => rfl
  | cons c t =>
    rw [List.dropWhile_cons_of_neg (by simp [hall c (List.mem_cons_self c t)])]

/-- An all-digit run always parses (worker form). -/
theorem pyIntDigitsGo_digits : ∀ (cs : List Char),
    (∀ c ∈ cs, isDigitChar c = true) → ∀ acc,
    ∃ m : Nat, pyIntDigitsGo cs acc = some m
  | [], _, acc => ⟨acc, rfl⟩
  | c :: rest, hall, acc => by
    have hc : isDigitChar c = true := hall c (List.mem_cons_self c rest)
    have hrest : ∀ d ∈ rest, isDigitChar d = true :=
      fun d hd => hall d (List.mem_cons_of_mem c hd)
    obtain ⟨m, hm⟩ := pyIntDigitsGo_digits rest hrest (acc * 10 + digitVal c)
    exact ⟨m, by rw [pyIntDigitsGo.eq_def]; simp [hc, hm]⟩

/-- An `isdigit()` string always survives `int()` with a non-negative
value. -/
theorem pyIsDigit_parse (s : String) (h : pyIsDigit s = true) :
    ∃ m : Nat, pyIntParse s = some (m : Int) := by
  have h1 : s.data.isEmpty = false ∧ s.data.all isDigitChar = true := by
    unfold pyIsDigit at h
    rcases Bool.and_eq_true_iff.mp h with ⟨ha, hb⟩
    exact ⟨by simpa using ha, hb⟩
  have hall : ∀ c ∈ s.data, isDigitChar c = true := by
    intro c hc
    exact List.all_eq_true.mp h1.2 c hc
  have hstrip : stripChars s.data = s.data :=
    stripChars_of_nospace s.data (fun c hc => digit_not_space c (hall c hc))
  unfold pyIntParse
  rw [hstrip]
  cases hd : s.data with
  | nil => rw [hd] at h1; exact absurd h1.1 (by simp)
  | cons c rest =>
    have hc : isDigitChar c = true := hall c (hd ▸ List.mem_cons_self c rest)
    have hsign := digit_ne_sign c hc
    simp only [pyIntParseChars]
    rw [if_neg hsign.1, if_neg hsign.2]
    have hrest : ∀ d ∈ rest, isDigitChar d = true :=
      fun d hdm => hall d (hd ▸ List.mem_cons_of_mem c hdm)
    obtain ⟨m, hm⟩ := pyIntDigitsGo_digits rest hrest (digitVal c)
    exact ⟨m, by simp [pyIntDigits, hc, hm]⟩

/-- Self-comparison of list prefixes. -/
theorem prefOf_refl : ∀ (l : List Char), prefOf l l = true
  | [] => rfl
  | c :: rest => by simp [prefOf, prefOf_refl rest]

/-- A suffix is always found by the substring search (list form). -/
theorem hasSubstrL_append : ∀ (pre n : List Char),
    hasSubstrL (pre ++ n) n = true
  | [], n => by
    cases n with
    | nil => rfl
    | cons c t => simp [hasSubstrL, prefOf_refl]
  | c :: pre, n => by
    simp [hasSubstrL, hasSubstrL_append pre n]

/-- A suffix is always found by the substring search. -/
theorem hasSubstr_append (pre c : String) : hasSubstr (pre ++ c) c = true := by
  unfold hasSubstr
  have hd : (pre ++ c).data = pre.data ++ c.data := rfl
  rw [hd]
  exact hasSubstrL_append _ _

/-- Outcome of the field checks when the line has the wrong arity. -/
theorem vf_len (pd : List (Int × String)) (fields : List String)
    (h : fields.length ≠ 14) :
    validate_fields pd fields = Except.ok (false, "Incorrect number of fields") := by
  unfold validate_fields
  rw [if_pos h]

/-- Outcome of the field checks on a bad version field. -/
theorem vf_version (pd : List (Int × String)) (fields : List String)
    (h14 : fields.length = 14) (h : fields.getD 0 "" ≠ "2") :
    validate_fields pd fields = Except.ok (false, "Invalid version") := by
  unfold validate_fields
  rw [if_neg (not_not_intro h14)]
  simp [-List.getD_eq_getElem?_getD, h]

/-- Outcome of the field checks on a bad account id. -/
theorem vf_account (pd : List (Int × String)) (fields : List String)
    (h14 : fields.length = 14) (h2 : fields.getD 0 "" = "2")
    (h : ¬(pyIsDigit (fields.getD 1 "") = true ∧ (fields.getD 1 "").length = 12)) :
    validate_fields pd fields = Except.ok (false, "Invalid account ID") := by
  unfold validate_fields
  rw [if_neg (not_not_intro h14)]
  simp [-List.getD_eq_getElem?_getD, h2, h]

/-- Outcome of the field checks on a bad interface id. -/
theorem vf_interface (pd : List (Int × String)) (fields : List String)
    (h14 : fields.length = 14) (h2 : fields.getD 0 "" = "2")
    (h3a : pyIsDigit (fields.getD 1 "") = true)
    (h3b : (fields.getD 1 "").length = 12)
    (h : ¬(strStartsWith (fields.getD 2 "") "eni-" = true ∧
      (fields.getD 2 "").length = 12)) :
    validate_fields pd fields = Except.ok (false, "Invalid interface ID") := by
  unfold validate_fields
  rw [if_neg (not_not_intro h14)]
  simp [-List.getD_eq_getElem?_getD, h2, h3a, h3b, h]

/-- Outcome of the field checks on a bad address field. -/
theorem vf_ip (pd : List (Int × String)) (fields : List String)
    (h14 : fields.length = 14) (h2 : fields.getD 0 "" = "2")
    (h3a : pyIsDigit (fields.getD 1 "") = true)
    (h3b : (fields.getD 1 "").length = 12)
    (h4a : strStartsWith (fields.getD 2 "") "eni-" = true)
    (h4b : (fields.getD 2 "").length = 12)
    (h : ¬(is_ip_address (fields.getD 3 "") = true ∧
      is_ip_address (fields.getD 4 "") = true)) :
    validate_fields pd fields = Except.ok (false, "Invalid IP address") := by
  unfold validate_fields
  rw [if_neg (not_not_intro h14)]
  simp [-List.getD_eq_getElem?_getD, h2, h3a, h3b, h4a, h4b, h]

/-- Outcome of the field checks when `int(srcport)` raises. -/
theorem vf_srcport_err (pd : List (Int × String)) (fields : List String)
    (h14 : fields.length = 14) (h2 : fields.getD 0 "" = "2")
    (h3a : pyIsDigit (fields.getD 1 "") = true)
    (h3b : (fields.getD 1 "").length = 12)
    (h4a : strStartsWith (fields.getD 2 "") "eni-" = true)
    (h4b : (fields.getD 2 "").length = 12)
    (h5a : is_ip_address (fields.getD 3 "") = true)
    (h5b : is_ip_address (fields.getD 4 "") = true)
    (h : pyIntParse (fields.getD 5 "") = none) :
    validate_fields pd fields = Except.error (intErrMsg (fields.getD 5 "")) := by
  unfold validate_fields pyIntE
  rw [if_neg (not_not_intro h14)]
  simp [-List.getD_eq_getElem?_getD, h2, h3a, h3b, h4a, h4b, h5a, h5b, h]

/-- Outcome of the field checks on an out-of-range source port. -/
theorem vf_srcport_range (pd : List (Int × String)) (fields : List String)
    (h14 : fields.length = 14) (h2 : fields.getD 0 "" = "2")
    (h3a : pyIsDigit (fields.getD 1 "") = true)
    (h3b : (fields.getD 1 "").length = 12)
    (h4a : strStartsWith (fields.getD 2 "") "eni-" = true)
    (h4b : (fields.getD 2 "").length = 12)
    (h5a : is_ip_address (fields.getD 3 "") = true)
    (h5b : is_ip_address (fields.getD 4 "") = true)
    (sp : Int) (hsp : pyIntParse (fields.getD 5 "") = some sp)
    (h : ¬(0 ≤ sp ∧ sp ≤ 65535)) :
    validate_fields pd fields = Except.ok (false, "Invalid port number") := by
  unfold validate_fields pyIntE
  rw [if_neg (not_not_intro h14)]
  simp [-List.getD_eq_getElem?_getD, h2, h3a, h3b, h4a, h4b, h5a, h5b, hsp, h]

/-- Outcome of the field checks when `int(dstport)` raises. -/
theorem vf_dstport_err (pd : List (Int × String)) (fields : List String)
    (h14 : fields.length = 14) (h2 : fields.getD 0 "" = "2")
    (h3a : pyIsDigit (fields.getD 1 "") = true)
    (h3b : (fields.getD 1 "").length = 12)
    (h4a : strStartsWith (fields.getD 2 "") "eni-" = true)
    (h4b : (fields.getD 2 "").length = 12)
    (h5a : is_ip_address (fields.getD 3 "") = true)
    (h5b : is_ip_address (fields.getD 4 "") = true)
    (sp : Int) (hsp : pyIntParse (fields.getD 5 "") = some sp)
    (hsp1 : 0 ≤ sp) (hsp2 : sp ≤ 65535)
    (h : pyIntParse (fields.getD 6 "") = none) :
    validate_fields pd fields = Except.error (intErrMsg (fields.getD 6 "")) := by
  unfold validate_fields pyIntE
  rw [if_neg (not_not_intro h14)]
  simp [-List.getD_eq_getElem?_getD, h2, h3a, h3b, h4a, h4b, h5a, h5b, hsp, hsp1, hsp2, h]

/-- Outcome of the field checks on an out-of-range destination port. -/
theorem vf_dstport_range (pd : List (Int × String)) (fields : List String)
    (h14 : fields.length = 14) (h2 : fields.getD 0 "" = "2")
    (h3a : pyIsDigit (fields.getD 1 "") = true)
    (h3b : (fields.getD 1 "").length = 12)
    (h4a : strStartsWith (fields.getD 2 "") "eni-" = true)
    (h4b : (fields.getD 2 "").length = 12)
    (h5a : is_ip_address (fields.getD 3 "") = true)
    (h5b : is_ip_address (fields.getD 4 "") = true)
    (sp : Int) (hsp : pyIntParse (fields.getD 5 "") = some sp)
    (hsp1 : 0 ≤ sp) (hsp2 : sp ≤ 65535)
    (dp : Int) (hdp : pyIntParse (fields.getD 6 "") = some dp)
    (h : ¬(0 ≤ dp ∧ dp ≤ 65535)) :
    validate_fields pd fields = Except.ok (false, "Invalid port number") := by
  unfold validate_fields pyIntE
  rw [if_neg (not_not_intro h14)]
  simp [-List.getD_eq_getElem?_getD, h2, h3a, h3b, h4a, h4b, h5a, h5b, hsp, hsp1, hsp2, hdp, h]

/-- Outcome of the field checks when `int(protocol)` raises. -/
theorem vf_proto_err (pd : List (Int × String)) (fields : List String)
    (h14 : fields.length = 14) (h2 : fields.getD 0 "" = "2")
    (h3a : pyIsDigit (fields.getD 1 "") = true)
    (h3b : (fields.getD 1 "").length = 12)
    (h4a : strStartsWith (fields.getD 2 "") "eni-" = true)
    (h4b : (fields.getD 2 "").length = 12)
    (h5a : is_ip_address (fields.getD 3 "") = true)
    (h5b : is_ip_address (fields.getD 4 "") = true)
    (sp : Int) (hsp : pyIntParse (fields.getD 5 "") = some sp)
    (hsp1 : 0 ≤ sp) (hsp2 : sp ≤ 65535)
    (dp : Int) (hdp : pyIntParse (fields.getD 6 "") = some dp)
    (hdp1 : 0 ≤ dp) (hdp2 : dp ≤ 65535)
    (h : pyIntParse (fields.getD 7 "") = none) :
    validate_fields pd fields = Except.error (intErrMsg (fields.getD 7 "")) := by
  unfold validate_fields pyIntE
  rw [if_neg (not_not_intro h14)]
  simp [-List.getD_eq_getElem?_getD, h2, h3a, h3b, h4a, h4b, h5a, h5b, hsp, hsp1, hsp2, hdp, hdp1,
    hdp2, h]

/-- Outcome of the field checks on an unknown protocol number. -/
theorem vf_proto_missing (pd : List (Int × String)) (fields : List String)
    (h14 : fields.length = 14) (h2 : fields.getD 0 "" = "2")
    (h3a : pyIsDigit (fields.getD 1 "") = true)
    (h3b : (fields.getD 1 "").length = 12)
    (h4a : strStartsWith (fields.getD 2 "") "eni-" = true)
    (h4b : (fields.getD 2 "").length = 12)
    (h5a : is_ip_address (fields.getD 3 "") = true)
    (h5b : is_ip_address (fields.getD 4 "") = true)
    (sp : Int) (hsp : pyIntParse (fields.getD 5 "") = some sp)
    (hsp1 : 0 ≤ sp) (hsp2 : sp ≤ 65535)
    (dp : Int) (hdp : pyIntParse (fields.getD 6 "") = some dp)
    (hdp1 : 0 ≤ dp) (hdp2 : dp ≤ 65535)
    (pr : Int) (hpr : pyIntParse (fields.getD 7 "") = some pr)
    (h : (dget pd pr).isSome = false) :
    validate_fields pd fields = Except.ok (false, "Invalid protocol") := by
  unfold validate_fields pyIntE
  rw [if_neg (not_not_intro h14)]
  simp [-List.getD_eq_getElem?_getD, h2, h3a, h3b, h4a, h4b, h5a, h5b, hsp, hsp1, hsp2, hdp, hdp1,
    hdp2, hpr, h]

/-- Outcome of the field checks when `int(packets)` raises. -/
theorem vf_packets_err (pd : List (Int × String)) (fields : List String)
    (h14 : fields.length = 14) (h2 : fields.getD 0 "" = "2")
    (h3a : pyIsDigit (fields.getD 1 "") = true)
    (h3b : (fields.getD 1 "").length = 12)
    (h4a : strStartsWith (fields.getD 2 "") "eni-" = true)
    (h4b : (fields.getD 2 "").length = 12)
    (h5a : is_ip_address (fields.getD 3 "") = true)
    (h5b : is_ip_address (fields.getD 4 "") = true)
    (sp : Int) (hsp : pyIntParse (fields.getD 5 "") = some sp)
    (hsp1 : 0 ≤ sp) (hsp2 : sp ≤ 65535)
    (dp : Int) (hdp : pyIntParse (fields.getD 6 "") = some dp)
    (hdp1 : 0 ≤ dp) (hdp2 : dp ≤ 65535)
    (pr : Int) (hpr : pyIntParse (fields.getD 7 "") = some pr)
    (hk : (dget pd pr).isSome = true)
    (h : pyIntParse (fields.getD 8 "") = none) :
    validate_fields pd fields = Except.error (intErrMsg (fields.getD 8 "")) := by
  unfold validate_fields pyIntE
  rw [if_neg (not_not_intro h14)]
  simp [-List.getD_eq_getElem?_getD, h2, h3a, h3b, h4a, h4b, h5a, h5b, hsp, hsp1, hsp2, hdp, hdp1,
    hdp2, hpr, hk, h]

/-- Outcome of the field checks on a negative packet count. -/
theorem vf_packets_neg (pd : List (Int × String)) (fields : List String)
    (h14 : fields.length = 14) (h2 : fields.getD 0 "" = "2")
    (h3a : pyIsDigit (fields.getD 1 "") = true)
    (h3b : (fields.getD 1 "").length = 12)
    (h4a : strStartsWith (fields.getD 2 "") "eni-" = true)
    (h4b : (fields.getD 2 "").length = 12)
    (h5a : is_ip_address (fields.getD 3 "") = true)
    (h5b : is_ip_address (fields.getD 4 "") = true)
    (sp : Int) (hsp : pyIntParse (fields.getD 5 "") = some sp)
    (hsp1 : 0 ≤ sp) (hsp2 : sp ≤ 65535)
    (dp : Int) (hdp : pyIntParse (fields.getD 6 "") = some dp)
    (hdp1 : 0 ≤ dp) (hdp2 : dp ≤ 65535)
    (pr : Int) (hpr : pyIntParse (fields.getD 7 "") = some pr)
    (hk : (dget pd pr).isSome = true)
    (pk : Int) (hpk : pyIntParse (fields.getD 8 "") = some pk)
    (h : pk < 0) :
    validate_fields pd fields =
      Except.ok (false, "Invalid packets or bytes count") := by
  unfold validate_fields pyIntE
  rw [if_neg (not_not_intro h14)]
  simp [-List.getD_eq_getElem?_getD, h2, h3a, h3b, h4a, h4b, h5a, h5b, hsp, hsp1, hsp2, hdp, hdp1,
    hdp2, hpr, hk, hpk, h]

/-- Outcome of the field checks when `int(bytes)` raises. -/
theorem vf_bytes_err (pd : List (Int × String)) (fields : List String)
    (h14 : fields.length = 14) (h2 : fields.getD 0 "" = "2")
    (h3a : pyIsDigit (fields.getD 1 "") = true)
    (h3b : (fields.getD 1 "").length = 12)
    (h4a : strStartsWith (fields.getD 2 "") "eni-" = true)
    (h4b : (fields.getD 2 "").length = 12)
    (h5a : is_ip_address (fields.getD 3 "") = true)
    (h5b : is_ip_address (fields.getD 4 "") = true)
    (sp : Int) (hsp : pyIntParse (fields.getD 5 "") = some sp)
    (hsp1 : 0 ≤ sp) (hsp2 : sp ≤ 65535)
    (dp : Int) (hdp : pyIntParse (fields.getD 6 "") = some dp)
    (hdp1 : 0 ≤ dp) (hdp2 : dp ≤ 65535)
    (pr : Int) (hpr : pyIntParse (fields.getD 7 "") = some pr)
    (hk : (dget pd pr).isSome = true)
    (pk : Int) (hpk : pyIntParse (fields.getD 8 "") = some pk)
    (hpk0 : 0 ≤ pk)
    (h : pyIntParse (fields.getD 9 "") = none) :
    validate_fields pd fields = Except.error (intErrMsg (fields.getD 9 "")) := by
  unfold validate_fields pyIntE
  rw [if_neg (not_not_intro h14)]
  simp [-List.getD_eq_getElem?_getD, h2, h3a, h3b, h4a, h4b, h5a, h5b, hsp, hsp1, hsp2, hdp, hdp1,
    hdp2, hpr, hk, hpk, not_lt.mpr hpk0, h]

/-- Outcome of the field checks on a negative byte count. -/
theorem vf_bytes_neg (pd : List (Int × String)) (fields : List String)
    (h14 : fields.length = 14) (h2 : fields.getD 0 "" = "2")
    (h3a : pyIsDigit (fields.getD 1 "") = true)
    (h3b : (fields.getD 1 "").length = 12)
    (h4a : strStartsWith (fields.getD 2 "") "eni-" = true)
    (h4b : (fields.getD 2 "").length = 12)
    (h5a : is_ip_address (fields.getD 3 "") = true)
    (h5b : is_ip_address (fields.getD 4 "") = true)
    (sp : Int) (hsp : pyIntParse (fields.getD 5 "") = some sp)
    (hsp1 : 0 ≤ sp) (hsp2 : sp ≤ 65535)
    (dp : Int) (hdp : pyIntParse (fields.getD 6 "") = some dp)
    (hdp1 : 0 ≤ dp) (hdp2 : dp ≤ 65535)
    (pr : Int) (hpr : pyIntParse (fields.getD 7 "") = some pr)
    (hk : (dget pd pr).isSome = true)
    (pk : Int) (hpk : pyIntParse (fields.getD 8 "") = some pk)
    (hpk0 : 0 ≤ pk)
    (bk : Int) (hbk : pyIntParse (fields.getD 9 "") = some bk)
    (h : bk < 0) :
    validate_fields pd fields =
      Except.ok (false, "Invalid packets or bytes count") := by
  unfold validate_fields pyIntE
  rw [if_neg (not_not_intro h14)]
  simp [-List.getD_eq_getElem?_getD, h2, h3a, h3b, h4a, h4b, h5a, h5b, hsp, hsp1, hsp2, hdp, hdp1,
    hdp2, hpr, hk, hpk, not_lt.mpr hpk0, hbk, h]

/-- Outcome of the field checks on a bad timestamp pair. -/
theorem vf_timestamps (pd : List (Int × String)) (fields : List String)
    (h14 : fields.length = 14) (h2 : fields.getD 0 "" = "2")
    (h3a : pyIsDigit (fields.getD 1 "") = true)
    (h3b : (fields.getD 1 "").length = 12)
    (h4a : strStartsWith (fields.getD 2 "") "eni-" = true)
    (h4b : (fields.getD 2 "").length = 12)
    (h5a : is_ip_address (fields.getD 3 "") = true)
    (h5b : is_ip_address (fields.getD 4 "") = true)
    (sp : Int) (hsp : pyIntParse (fields.getD 5 "") = some sp)
    (hsp1 : 0 ≤ sp) (hsp2 : sp ≤ 65535)
    (dp : Int) (hdp : pyIntParse (fields.getD 6 "") = some dp)
    (hdp1 : 0 ≤ dp) (hdp2 : dp ≤ 65535)
    (pr : Int) (hpr : pyIntParse (fields.getD 7 "") = some pr)
    (hk : (dget pd pr).isSome = true)
    (pk : Int) (hpk : pyIntParse (fields.getD 8 "") = some pk)
    (hpk0 : 0 ≤ pk)
    (bk : Int) (hbk : pyIntParse (fields.getD 9 "") = some bk)
    (hbk0 : 0 ≤ bk)
    (h : ¬ruleTimestamps fields) :
    validate_fields pd fields = Except.ok (false, "Invalid timestamps") := by
  unfold validate_fields pyIntE
  rw [if_neg (not_not_intro h14)]
  by_cases h10 : pyIsDigit (fields.getD 10 "") = true
  · by_cases h11 : pyIsDigit (fields.getD 11 "") = true
    · obtain ⟨mts, hts⟩ := pyIsDigit_parse _ h10
      obtain ⟨mte, hte⟩ := pyIsDigit_parse _ h11
      have hlt : ¬((mte : Int) ≥ (mts : Int)) := by
        intro hge
        exact h ⟨h10, h11, by rw [hts, hte]; simpa using hge⟩
      simp [-List.getD_eq_getElem?_getD, h2, h3a, h3b, h4a, h4b, h5a, h5b, hsp, hsp1, hsp2, hdp,
        hdp1, hdp2, hpr, hk, hpk, not_lt.mpr hpk0, hbk, not_lt.mpr hbk0,
        h10, h11, hts, hte, hlt]
    · have h11f : pyIsDigit (fields.getD 11 "") = false :=
        Bool.eq_false_iff.mpr (fun hx => h11 hx)
      simp [-List.getD_eq_getElem?_getD, h2, h3a, h3b, h4a, h4b, h5a, h5b, hsp, hsp1, hsp2, hdp,
        hdp1, hdp2, hpr, hk, hpk, not_lt.mpr hpk0, hbk, not_lt.mpr hbk0,
        h10, h11f]
  · have h10f : pyIsDigit (fields.getD 10 "") = false :=
      Bool.eq_false_iff.mpr (fun hx => h10 hx)
    simp [-List.getD_eq_getElem?_getD, h2, h3a, h3b, h4a, h4b, h5a, h5b, hsp, hsp1, hsp2, hdp,
      hdp1, hdp2, hpr, hk, hpk, not_lt.mpr hpk0, hbk, not_lt.mpr hbk0, h10f]

/-- Outcome of the field checks on a bad action field. -/
theorem vf_action (pd : List (Int × String)) (fields : List String)
    (h14 : fields.length = 14) (h2 : fields.getD 0 "" = "2")
    (h3a : pyIsDigit (fields.getD 1 "") = true)
    (h3b : (fields.getD 1 "").length = 12)
    (h4a : strStartsWith (fields.getD 2 "") "eni-" = true)
    (h4b : (fields.getD 2 "").length = 12)
    (h5a : is_ip_address (fields.getD 3 "") = true)
    (h5b : is_ip_address (fields.getD 4 "") = true)
    (sp : Int) (hsp : pyIntParse (fields.getD 5 "") = some sp)
    (hsp1 : 0 ≤ sp) (hsp2 : sp ≤ 65535)
    (dp : Int) (hdp : pyIntParse (fields.getD 6 "") = some dp)
    (hdp1 : 0 ≤ dp) (hdp2 : dp ≤ 65535)
    (pr : Int) (hpr : pyIntParse (fields.getD 7 "") = some pr)
    (hk : (dget pd pr).isSome = true)
    (pk : Int) (hpk : pyIntParse (fields.getD 8 "") = some pk)
    (hpk0 : 0 ≤ pk)
    (bk : Int) (hbk : pyIntParse (fields.getD 9 "") = some bk)
    (hbk0 : 0 ≤ bk)
    (h10 : pyIsDigit (fields.getD 10 "") = true)
    (h11 : pyIsDigit (fields.getD 11 "") = true)
    (hcmp : (pyIntParse (fields.getD 11 "")).getD 0 ≥
      (pyIntParse (fields.getD 10 "")).getD 0)
    (h : ¬(fields.getD 12 "" = "ACCEPT" ∨ fields.getD 12 "" = "REJECT")) :
    validate_fields pd fields = Except.ok (false, "Invalid action") := by
  unfold validate_fields pyIntE
  rw [if_neg (not_not_intro h14)]
  obtain ⟨mts, hts⟩ := pyIsDigit_parse _ h10
  obtain ⟨mte, hte⟩ := pyIsDigit_parse _ h11
  rw [hts, hte] at hcmp
  simp only [Option.getD_some] at hcmp
  simp [-List.getD_eq_getElem?_getD, h2, h3a, h3b, h4a, h4b, h5a, h5b, hsp, hsp1, hsp2, hdp, hdp1,
    hdp2, hpr, hk, hpk, not_lt.mpr hpk0, hbk, not_lt.mpr hbk0, h10, h11,
    hts, hte, hcmp, h]

/-- Outcome of the field checks on a bad log status field. -/
theorem vf_status (pd : List (Int × String)) (fields : List String)
    (h14 : fields.length = 14) (h2 : fields.getD 0 "" = "2")
    (h3a : pyIsDigit (fields.getD 1 "") = true)
    (h3b : (fields.getD 1 "").length = 12)
    (h4a : strStartsWith (fields.getD 2 "") "eni-" = true)
    (h4b : (fields.getD 2 "").length = 12)
    (h5a : is_ip_address (fields.getD 3 "") = true)
    (h5b : is_ip_address (fields.getD 4 "") = true)
    (sp : Int) (hsp : pyIntParse (fields.getD 5 "") = some sp)
    (hsp1 : 0 ≤ sp) (hsp2 : sp ≤ 65535)
    (dp : Int) (hdp : pyIntParse (fields.getD 6 "") = some dp)
    (hdp1 : 0 ≤ dp) (hdp2 : dp ≤ 65535)
    (pr : Int) (hpr : pyIntParse (fields.getD 7 "") = some pr)
    (hk : (dget pd pr).isSome = true)
    (pk : Int) (hpk : pyIntParse (fields.getD 8 "") = some pk)
    (hpk0 : 0 ≤ pk)
    (bk : Int) (hbk : pyIntParse (fields.getD 9 "") = some bk)
    (hbk0 : 0 ≤ bk)
    (h10 : pyIsDigit (fields.getD 10 "") = true)
    (h11 : pyIsDigit (fields.getD 11 "") = true)
    (hcmp : (pyIntParse (fields.getD 11 "")).getD 0 ≥
      (pyIntParse (fields.getD 10 "")).getD 0)
    (hact : fields.getD 12 "" = "ACCEPT" ∨ fields.getD 12 "" = "REJECT")
    (h : ¬(fields.getD 13 "" = "OK" ∨ fields.getD 13 "" = "NODATA" ∨
      fields.getD 13 "" = "SKIPDATA")) :
    validate_fields pd fields = Except.ok (false, "Invalid log status") := by
  unfold validate_fields pyIntE
  rw [if_neg (not_not_intro h14)]
  obtain ⟨mts, hts⟩ := pyIsDigit_parse _ h10
  obtain ⟨mte, hte⟩ := pyIsDigit_parse _ h11
  rw [hts, hte] at hcmp
  simp only [Option.getD_some] at hcmp
  simp [-List.getD_eq_getElem?_getD, h2, h3a, h3b, h4a, h4b, h5a, h5b, hsp, hsp1, hsp2, hdp, hdp1,
    hdp2, hpr, hk, hpk, not_lt.mpr hpk0, hbk, not_lt.mpr hbk0, h10, h11,
    hts, hte, hcmp, not_not_intro hact, h]

/-- Outcome of the field checks on a line passing every rule. -/
theorem vf_ok (pd : List (Int × String)) (fields : List String)
    (h14 : fields.length = 14) (h2 : fields.getD 0 "" = "2")
    (h3a : pyIsDigit (fields.getD 1 "") = true)
    (h3b : (fields.getD 1 "").length = 12)
    (h4a : strStartsWith (fields.getD 2 "") "eni-" = true)
    (h4b : (fields.getD 2 "").length = 12)
    (h5a : is_ip_address (fields.getD 3 "") = true)
    (h5b : is_ip_address (fields.getD 4 "") = true)
    (sp : Int) (hsp : pyIntParse (fields.getD 5 "") = some sp)
    (hsp1 : 0 ≤ sp) (hsp2 : sp ≤ 65535)
    (dp : Int) (hdp : pyIntParse (fields.getD 6 "") = some dp)
    (hdp1 : 0 ≤ dp) (hdp2 : dp ≤ 65535)
    (pr : Int) (hpr : pyIntParse (fields.getD 7 "") = some pr)
    (hk : (dget pd pr).isSome = true)
    (pk : Int) (hpk : pyIntParse (fields.getD 8 "") = some pk)
    (hpk0 : 0 ≤ pk)
    (bk : Int) (hbk : pyIntParse (fields.getD 9 "") = some bk)
    (hbk0 : 0 ≤ bk)
    (h10 : pyIsDigit (fields.getD 10 "") = true)
    (h11 : pyIsDigit (fields.getD 11 "") = true)
    (hcmp : (pyIntParse (fields.getD 11 "")).getD 0 ≥
      (pyIntParse (fields.getD 10 "")).getD 0)
    (hact : fields.getD 12 "" = "ACCEPT" ∨ fields.getD 12 "" = "REJECT")
    (hst : fields.getD 13 "" = "OK" ∨ fields.getD 13 "" = "NODATA" ∨
      fields.getD 13 "" = "SKIPDATA") :
    validate_fields pd fields = Except.ok (true, "Valid entry") := by
  unfold validate_fields pyIntE
  rw [if_neg (not_not_intro h14)]
  obtain ⟨mts, hts⟩ := pyIsDigit_parse _ h10
  obtain ⟨mte, hte⟩ := pyIsDigit_parse _ h11
  rw [hts, hte] at hcmp
  simp only [Option.getD_some] at hcmp
  simp [-List.getD_eq_getElem?_getD, h2, h3a, h3b, h4a, h4b, h5a, h5b, hsp, hsp1, hsp2, hdp, hdp1,
    hdp2, hpr, hk, hpk, not_lt.mpr hpk0, hbk, not_lt.mpr hbk0, h10, h11,
    hts, hte, hcmp, not_not_intro hact, not_not_intro hst]

/-- A value of the body translates to the validator's value. -/
theorem validate_of_ok (pd : List (Int × String)) (entry : String)
    (r : Bool × String)
    (h : validate_fields pd (pySplit (pyStrip entry)) = Except.ok r) :
    validate_flow_log_entry pd entry = r := by
  unfold validate_flow_log_entry validate_body
  rw [h]

/-- An exception of the body translates to the generic Invalid result. -/
theorem validate_of_err (pd : List (Int × String)) (entry : String)
    (c : String)
    (h : validate_fields pd (pySplit (pyStrip entry)) = Except.error c) :
    validate_flow_log_entry pd entry =
      (false, "Error in flow log validation: " ++ c) := by
  unfold validate_flow_log_entry validate_body
  rw [h]

/-- ASCII lower-casing leaves a character without an uppercase letter
unchanged. -/
theorem lowerChar_eq_self (c : Char)
    (h1 : c ≠ 'A') (h2 : c ≠ 'B') (h3 : c ≠ 'C') (h4 : c ≠ 'D') (h5 : c ≠ 'E')
    (h6 : c ≠ 'F') (h7 : c ≠ 'G') (h8 : c ≠ 'H') (h9 : c ≠ 'I') (h10 : c ≠ 'J')
    (h11 : c ≠ 'K') (h12 : c ≠ 'L') (h13 : c ≠ 'M') (h14 : c ≠ 'N') (h15 : c ≠ 'O')
    (h16 : c ≠ 'P') (h17 : c ≠ 'Q') (h18 : c ≠ 'R') (h19 : c ≠ 'S') (h20 : c ≠ 'T')
    (h21 : c ≠ 'U') (h22 : c ≠ 'V') (h23 : c ≠ 'W') (h24 : c ≠ 'X') (h25 : c ≠ 'Y')
    (h26 : c ≠ 'Z')
    : lowerChar c = c := by
  unfold lowerChar
  rw [if_neg h1, if_neg h2, if_neg h3, if_neg h4, if_neg h5, if_neg h6,
    if_neg h7, if_neg h8, if_neg h9, if_neg h10, if_neg h11, if_neg h12,
    if_neg h13, if_neg h14, if_neg h15, if_neg h16, if_neg h17, if_neg h18,
    if_neg h19, if_neg h20, if_neg h21, if_neg h22, if_neg h23, if_neg h24,
    if_neg h25, if_neg h26]

/-- ASCII lower-casing is idempotent. -/
theorem lowerChar_idem (c : Char) : lowerChar (lowerChar c) = lowerChar c := by
  by_cases h1 : c = 'A'
  · subst h1; decide
  by_cases h2 : c = 'B'
  · subst h2; decide
  by_cases h3 : c = 'C'
  · subst h3; decide
  by_cases h4 : c = 'D'
  · subst h4; decide
  by_cases h5 : c = 'E'
  · subst h5; decide
  by_cases h6 : c = 'F'
  · subst h6; decide
  by_cases h7 : c = 'G'
  · subst h7; decide
  by_cases h8 : c = 'H'
  · subst h8; decide
  by_cases h9 : c = 'I'
  · subst h9; decide
  by_cases h10 : c = 'J'
  · subst h10; decide
  by_cases h11 : c = 'K'
  · subst h11; decide
  by_cases h12 : c = 'L'
  · subst h12; decide
  by_cases h13 : c = 'M'
  · subst h13; decide
  by_cases h14 : c = 'N'
  · subst h14; decide
  by_cases h15 : c = 'O'
  · subst h15; decide
  by_cases h16 : c = 'P'
  · subst h16; decide
  by_cases h17 : c = 'Q'
  · subst h17; decide
  by_cases h18 : c = 'R'
  · subst h18; decide
  by_cases h19 : c = 'S'
  · subst h19; decide
  by_cases h20 : c = 'T'
  · subst h20; decide
  by_cases h21 : c = 'U'
  · subst h21; decide
  by_cases h22 : c = 'V'
  · subst h22; decide
  by_cases h23 : c = 'W'
  · subst h23; decide
  by_cases h24 : c = 'X'
  · subst h24; decide
  by_cases h25 : c = 'Y'
  · subst h25; decide
  by_cases h26 : c = 'Z'
  · subst h26; decide
  have hc := lowerChar_eq_self c h1 h2 h3 h4 h5 h6 h7 h8 h9 h10 h11 h12 h13
    h14 h15 h16 h17 h18 h19 h20 h21 h22 h23 h24 h25 h26
  rw [hc, hc]

/-- Lower-casing a character list is idempotent. -/
theorem map_lowerChar_idem : ∀ (l : List Char),
    (l.map lowerChar).map lowerChar = l.map lowerChar
  | [] => rfl
  | c :: rest => by simp [map_lowerChar_idem rest, lowerChar_idem c]

/-- Python `str.lower()` is idempotent (ASCII model). -/
theorem pyLower_idem (s : String) : pyLower (pyLower s) = pyLower s := by
  unfold pyLower
  exact congrArg String.mk (map_lowerChar_idem s.data)

/-- The protocol loader refines the specification's per-row description:
it is the fold of last-write-wins insertion over the per-row entries of
section 4.1. -/
theorem build_go_eq : ∀ (rows : List (String × String))
    (acc : List (Int × String)),
    build_port_protocol_dict acc rows =
      (rows.filterMap protoRowSpec).foldl (fun d kv => dinsert d kv.1 kv.2) acc
  | [], acc => rfl
  | row :: rest, acc => by
    by_cases hh : (pyStrip row.1).data.contains '-' = true
    · have hstep : build_port_protocol_dict acc (row :: rest) =
          build_port_protocol_dict acc rest := by
        rw [build_port_protocol_dict, if_pos hh]
      have hrow : protoRowSpec row = none := by
        unfold protoRowSpec
        rw [if_pos hh]
      rw [hstep, List.filterMap_cons_none hrow, build_go_eq rest acc]
    · cases hp : pyIntParse (pyStrip row.1) with
      | none =>
        have hstep : build_port_protocol_dict acc (row :: rest) =
            build_port_protocol_dict acc rest := by
          rw [build_port_protocol_dict, if_neg hh, hp]
        have hrow : protoRowSpec row = none := by
          unfold protoRowSpec
          rw [if_neg hh, hp]
          rfl
        rw [hstep, List.filterMap_cons_none hrow, build_go_eq rest acc]
      | some key =>
        have hstep : build_port_protocol_dict acc (row :: rest) =
            build_port_protocol_dict
              (dinsert acc key (pyLower (pyStrip row.2))) rest := by
          rw [build_port_protocol_dict, if_neg hh, hp]
        have hrow : protoRowSpec row =
            some (key, pyLower (pyStrip row.2)) := by
          unfold protoRowSpec
          rw [if_neg hh, hp]
          rfl
        rw [hstep, List.filterMap_cons_some hrow, List.foldl_cons]
        exact build_go_eq rest _

/-- The lookup loader refines the specification's per-row description:
it is the fold of last-write-wins insertion over the per-row entries of
section 4.2. -/
theorem load_go_eq : ∀ (rows : List (List String))
    (acc : List ((Int × String) × String)),
    load_lookup_table_go acc rows =
      (rows.filterMap lookupRowSpec).foldl (fun d kv => dinsert d kv.1 kv.2) acc
  | [], acc => rfl
  | row :: rest, acc => by
    by_cases h3 : row.length = 3
    · cases hp : pyIntParse (pyStrip (row.getD 0 "")) with
      | none =>
        have hstep : load_lookup_table_go acc (row :: rest) =
            load_lookup_table_go acc rest := by
          rw [load_lookup_table_go, if_neg (not_not_intro h3), hp]
        have hrow : lookupRowSpec row = none := by
          unfold lookupRowSpec
          rw [if_pos h3, hp]
        rw [hstep, List.filterMap_cons_none hrow, load_go_eq rest acc]
      | some p =>
        have hstep : load_lookup_table_go acc (row :: rest) =
            (if ¬(0 ≤ p ∧ p ≤ 65535) then load_lookup_table_go acc rest
             else load_lookup_table_go
               (dinsert acc (p, pyLower (pyStrip (row.getD 1 "")))
                 (pyLower (pyStrip (row.getD 2 "")))) rest) := by
          rw [load_lookup_table_go, if_neg (not_not_intro h3), hp]
        by_cases hr : 0 ≤ p ∧ p ≤ 65535
        · rw [hstep, if_neg (not_not_intro hr)]
          have hrow : lookupRowSpec row =
              some ((p, pyLower (pyStrip (row.getD 1 ""))),
                pyLower (pyStrip (row.getD 2 ""))) := by
            unfold lookupRowSpec
            rw [if_pos h3, hp]
            simp [hr]
          rw [List.filterMap_cons_some hrow, List.foldl_cons]
          exact load_go_eq rest _
        · rw [hstep, if_pos hr]
          have hrow : lookupRowSpec row = none := by
            unfold lookupRowSpec
            rw [if_pos h3, hp]
            simp [hr]
          rw [List.filterMap_cons_none hrow, load_go_eq rest acc]
    · have hstep : load_lookup_table_go acc (row :: rest) =
          load_lookup_table_go acc rest := by
        rw [load_lookup_table_go, if_pos h3]
      have hrow : lookupRowSpec row = none := by
        unfold lookupRowSpec
        rw [if_neg h3]
      rw [hstep, List.filterMap_cons_none hrow, load_go_eq rest acc]

/-- Every key the protocol loader can insert is non-negative. -/
theorem build_keys_nonneg : ∀ (rows : List (String × String))
    (acc : List (Int × String)),
    (∀ k : Int, (dget acc k).isSome = true → 0 ≤ k) →
    ∀ k : Int, (dget (build_port_protocol_dict acc rows) k).isSome = true →
    0 ≤ k
  | [], _, hacc, k, hk => hacc k hk
  | row :: rest, acc, hacc, k, hk => by
    by_cases hh : (pyStrip row.1).data.contains '-' = true
    · rw [build_port_protocol_dict, if_pos hh] at hk
      exact build_keys_nonneg rest acc hacc k hk
    · cases hp : pyIntParse (pyStrip row.1) with
      | none =>
        rw [build_port_protocol_dict, if_neg hh, hp] at hk
        exact build_keys_nonneg rest acc hacc k hk
      | some key =>
        have hkey : 0 ≤ key :=
          pyIntParse_nonneg (pyStrip row.1) key (by simpa using hh) hp
        rw [build_port_protocol_dict, if_neg hh, hp] at hk
        refine build_keys_nonneg rest _ ?_ k hk
        intro k2 hk2
        rw [dget_dinsert] at hk2
        by_cases hkk : k2 = key
        · exact hkk ▸ hkey
        · rw [if_neg hkk] at hk2
          exact hacc k2 hk2

/-- Every value the protocol loader can insert is already lower-cased. -/
theorem build_values_lower : ∀ (rows : List (String × String))
    (acc : List (Int × String)),
    (∀ (k : Int) (v : String), dget acc k = some v → pyLower v = v) →
    ∀ (k : Int) (v : String),
    dget (build_port_protocol_dict acc rows) k = some v → pyLower v = v
  | [], _, hacc, k, v, hk => hacc k v hk
  | row :: rest, acc, hacc, k, v, hk => by
    by_cases hh : (pyStrip row.1).data.contains '-' = true
    · rw [build_port_protocol_dict, if_pos hh] at hk
      exact build_values_lower rest acc hacc k v hk
    · cases hp : pyIntParse (pyStrip row.1) with
      | none =>
        rw [build_port_protocol_dict, if_neg hh, hp] at hk
        exact build_values_lower rest acc hacc k v hk
      | some key =>
        rw [build_port_protocol_dict, if_neg hh, hp] at hk
        refine build_values_lower rest _ ?_ k v hk
        intro k2 v2 hk2
        rw [dget_dinsert] at hk2
        by_cases hkk : k2 = key
        · rw [if_pos hkk] at hk2
          injection hk2 with hv2
          exact hv2 ▸ pyLower_idem (pyStrip row.2)
        · rw [if_neg hkk] at hk2
          exact hacc k2 v2 hk2

/-- An invalid line leaves the aggregates untouched. -/
theorem process_step_invalid (pd : List (Int × String))
    (lt : List ((Int × String) × String))
    (st : List (String × Nat) × List ((Int × String) × Nat)) (line : String)
    (hv : ¬(validate_flow_log_entry pd line).1 = true) :
    process_step pd lt st line = st := by
  unfold process_step
  rw [if_neg hv]

/-- Tag-count side of one accepted line: the resolved tag's counter is
bumped. -/
theorem process_step_tag (pd : List (Int × String))
    (lt : List ((Int × String) × String))
    (st : List (String × Nat) × List ((Int × String) × Nat)) (line : String)
    (hv : (validate_flow_log_entry pd line).1 = true) :
    (process_step pd lt st line).1 =
      dinsert st.1
        (resolveTag lt ((pyIntParse ((pySplit line).getD 6 "")).getD 0,
          resolveProtocol pd ((pyIntParse ((pySplit line).getD 7 "")).getD 0)))
        ((dget st.1
          (resolveTag lt ((pyIntParse ((pySplit line).getD 6 "")).getD 0,
            resolveProtocol pd
              ((pyIntParse ((pySplit line).getD 7 "")).getD 0)))).getD 0 + 1) := by
  unfold process_step
  rw [if_pos hv]
  simp only [counter_update_eq]

/-- Port/protocol-count side of one accepted line: the key's counter is
bumped. -/
theorem process_step_ppc (pd : List (Int × String))
    (lt : List ((Int × String) × String))
    (st : List (String × Nat) × List ((Int × String) × Nat)) (line : String)
    (hv : (validate_flow_log_entry pd line).1 = true) :
    (process_step pd lt st line).2 =
      dinsert st.2
        ((pyIntParse ((pySplit line).getD 6 "")).getD 0,
          resolveProtocol pd ((pyIntParse ((pySplit line).getD 7 "")).getD 0))
        ((dget st.2
          ((pyIntParse ((pySplit line).getD 6 "")).getD 0,
            resolveProtocol pd
              ((pyIntParse ((pySplit line).getD 7 "")).getD 0))).getD 0 + 1) := by
  unfold process_step
  rw [if_pos hv]

/-- Folding the loop adds one to the tag-count total per accepted line. -/
theorem process_foldl_tag_sum (pd : List (Int × String))
    (lt : List ((Int × String) × String)) : ∀ (lines : List String)
    (st : List (String × Nat) × List ((Int × String) × Nat)),
    sumVals (List.foldl (process_step pd lt) st lines).1 =
      sumVals st.1 + acceptedCount pd lines
  | [], st => by simp [acceptedCount]
  | l :: rest, st => by
    rw [List.foldl_cons]
    by_cases hv : (validate_flow_log_entry pd l).1 = true
    · rw [process_foldl_tag_sum pd lt rest (process_step pd lt st l)]
      have h1 : sumVals (process_step pd lt st l).1 = sumVals st.1 + 1 := by
        rw [process_step_tag pd lt st l hv, sumVals_bump]
      have h2 : acceptedCount pd (l :: rest) = acceptedCount pd rest + 1 := by
        unfold acceptedCount
        rw [List.filter_cons, if_pos hv]
        simp
      rw [h1, h2]
      omega
    · rw [process_step_invalid pd lt st l hv,
        process_foldl_tag_sum pd lt rest st]
      have h2 : acceptedCount pd (l :: rest) = acceptedCount pd rest := by
        unfold acceptedCount
        rw [List.filter_cons, if_neg hv]
      rw [h2]

/-- Folding the loop adds one to the port/protocol-count total per
accepted line. -/
theorem process_foldl_ppc_sum (pd : List (Int × String))
    (lt : List ((Int × String) × String)) : ∀ (lines : List String)
    (st : List (String × Nat) × List ((Int × String) × Nat)),
    sumVals (List.foldl (process_step pd lt) st lines).2 =
      sumVals st.2 + acceptedCount pd lines
  | [], st => by simp [acceptedCount]
  | l :: rest, st => by
    rw [List.foldl_cons]
    by_cases hv : (validate_flow_log_entry pd l).1 = true
    · rw [process_foldl_ppc_sum pd lt rest (process_step pd lt st l)]
      have h1 : sumVals (process_step pd lt st l).2 = sumVals st.2 + 1 := by
        rw [process_step_ppc pd lt st l hv, sumVals_bump]
      have h2 : acceptedCount pd (l :: rest) = acceptedCount pd rest + 1 := by
        unfold acceptedCount
        rw [List.filter_cons, if_pos hv]
        simp
      rw [h1, h2]
      omega
    · rw [process_step_invalid pd lt st l hv,
        process_foldl_ppc_sum pd lt rest st]
      have h2 : acceptedCount pd (l :: rest) = acceptedCount pd rest := by
        unfold acceptedCount
        rw [List.filter_cons, if_neg hv]
      rw [h2]

/-- Folding the loop preserves positivity of the tag counters. -/
theorem process_foldl_tag_pos (pd : List (Int × String))
    (lt : List ((Int × String) × String)) : ∀ (lines : List String)
    (st : List (String × Nat) × List ((Int × String) × Nat)),
    (∀ t c, dget st.1 t = some c → 0 < c) →
    ∀ t c, dget (List.foldl (process_step pd lt) st lines).1 t = some c →
    0 < c
  | [], _, hst, t, c, hc => hst t c hc
  | l :: rest, st, hst, t, c, hc => by
    rw [List.foldl_cons] at hc
    by_cases hv : (validate_flow_log_entry pd l).1 = true
    · refine process_foldl_tag_pos pd lt rest _ ?_ t c hc
      intro t2 c2 hc2
      rw [process_step_tag pd lt st l hv, dget_dinsert] at hc2
      split at hc2
      · injection hc2 with h
        omega
      · exact hst t2 c2 hc2
    · rw [process_step_invalid pd lt st l hv] at hc
      exact process_foldl_tag_pos pd lt rest st hst t c hc

/-- Folding the loop preserves positivity of the port/protocol
counters. -/
theorem process_foldl_ppc_pos (pd : List (Int × String))
    (lt : List ((Int × String) × String)) : ∀ (lines : List String)
    (st : List (String × Nat) × List ((Int × String) × Nat)),
    (∀ k c, dget st.2 k = some c → 0 < c) →
    ∀ k c, dget (List.foldl (process_step pd lt) st lines).2 k = some c →
    0 < c
  | [], _, hst, k, c, hc => hst k c hc
  | l :: rest, st, hst, k, c, hc => by
    rw [List.foldl_cons] at hc
    by_cases hv : (validate_flow_log_entry pd l).1 = true
    · refine process_foldl_ppc_pos pd lt rest _ ?_ k c hc
      intro k2 c2 hc2
      rw [process_step_ppc pd lt st l hv, dget_dinsert] at hc2
      split at hc2
      · injection hc2 with h
        omega
      · exact hst k2 c2 hc2
    · rw [process_step_invalid pd lt st l hv] at hc
      exact process_foldl_ppc_pos pd lt rest st hst k c hc

/-- A line the field checks accept must have a known protocol number:
rule 7 is checked before `Valid entry` can be returned. -/
theorem vf_true_protocol (pd : List (Int × String)) (fields : List String)
    (s : String) (h : validate_fields pd fields = Except.ok (true, s)) :
    ruleProtocol pd fields := by
  by_cases h14 : fields.length = 14
  case neg =>
    rw [vf_len pd fields h14] at h
    simp at h
  by_cases h2 : fields.getD 0 "" = "2"
  case neg =>
    rw [vf_version pd fields h14 h2] at h
    simp at h
  by_cases h3 : pyIsDigit (fields.getD 1 "") = true ∧
    (fields.getD 1 "").length = 12
  case neg =>
    rw [vf_account pd fields h14 h2 h3] at h
    simp at h
  by_cases h4 : strStartsWith (fields.getD 2 "") "eni-" = true ∧
    (fields.getD 2 "").length = 12
  case neg =>
    rw [vf_interface pd fields h14 h2 h3.1 h3.2 h4] at h
    simp at h
  by_cases h5 : is_ip_address (fields.getD 3 "") = true ∧
    is_ip_address (fields.getD 4 "") = true
  case neg =>
    rw [vf_ip pd fields h14 h2 h3.1 h3.2 h4.1 h4.2 h5] at h
    simp at h
  cases hsp : pyIntParse (fields.getD 5 "") with
  | none =>
    rw [vf_srcport_err pd fields h14 h2 h3.1 h3.2 h4.1 h4.2 h5.1 h5.2 hsp]
      at h
    simp at h
  | some sp =>
    by_cases hspr : 0 ≤ sp ∧ sp ≤ 65535
    case neg =>
      rw [vf_srcport_range pd fields h14 h2 h3.1 h3.2 h4.1 h4.2 h5.1 h5.2
        sp hsp hspr] at h
      simp at h
    cases hdp : pyIntParse (fields.getD 6 "") with
    | none =>
      rw [vf_dstport_err pd fields h14 h2 h3.1 h3.2 h4.1 h4.2 h5.1 h5.2
        sp hsp hspr.1 hspr.2 hdp] at h
      simp at h
    | some dp =>
      by_cases hdpr : 0 ≤ dp ∧ dp ≤ 65535
      case neg =>
        rw [vf_dstport_range pd fields h14 h2 h3.1 h3.2 h4.1 h4.2 h5.1 h5.2
          sp hsp hspr.1 hspr.2 dp hdp hdpr] at h
        simp at h
      cases hpr : pyIntParse (fields.getD 7 "") with
      | none =>
        rw [vf_proto_err pd fields h14 h2 h3.1 h3.2 h4.1 h4.2 h5.1 h5.2
          sp hsp hspr.1 hspr.2 dp hdp hdpr.1 hdpr.2 hpr] at h
        simp at h
      | some pr =>
        by_cases hk : (dget pd pr).isSome = true
        · exact ⟨pr, hpr, hk⟩
        · have hkf : (dget pd pr).isSome = false := by simpa using hk
          rw [vf_proto_missing pd fields h14 h2 h3.1 h3.2 h4.1 h4.2 h5.1
            h5.2 sp hsp hspr.1 hspr.2 dp hdp hdpr.1 hdpr.2 pr hpr hkf] at h
          simp at h

/-- An accepted line means the body returned `(True, reason)`. -/
theorem validate_true_body (pd : List (Int × String)) (entry : String)
    (h : (validate_flow_log_entry pd entry).1 = true) :
    ∃ s, validate_body pd entry = Except.ok (true, s) := by
  unfold validate_flow_log_entry at h
  cases hb : validate_body pd entry with
  | ok r =>
    rw [hb] at h
    refine ⟨r.2, ?_⟩
    have hr : r = (true, r.2) := by
      rw [Prod.ext_iff]
      exact ⟨h, rfl⟩
    rw [← hr]
  | error e =>
    rw [hb] at h
    simp at h

/-- C6: for every 3-column lookup row whose first column parses as an
integer port in [0, 65535], `load_lookup_table` maps
`(port, lowercase(trimmed protocol))` to `lowercase(trimmed tag)`; when
two rows produce the same key the later row's value wins (the fold of
overwrite-insertions); rows with another column count, a non-integer
port, or an out-of-range port contribute no entry (they are filtered
out); and the loader is a total function of the row list, so no row can
raise. -/
theorem claim6_lookup_table (rows : List (List String)) :
    load_lookup_table rows =
      (rows.filterMap lookupRowSpec).foldl
        (fun d kv => dinsert d kv.1 kv.2) [] :=
  load_go_eq rows []

/-- C7: for every protocol reference row whose trimmed `Decimal` cell is
hyphen-free and parses as an integer, `build_port_protocol_dict` maps
that integer to the lowercased trimmed `Keyword`; hyphenated or
non-parsing cells contribute no entry; and the loader always returns the
fold of the successfully parsed entries, so no row failure is fatal. -/
theorem claim7_protocol_table (rows : List (String × String)) :
    build_port_protocol_dict [] rows =
      (rows.filterMap protoRowSpec).foldl
        (fun d kv => dinsert d kv.1 kv.2) [] :=
  build_go_eq rows []

/-- C10: every key of the table produced by `build_port_protocol_dict`
is a non-negative integer — a negative `Decimal` cell contains a hyphen
and is skipped by the range check before `int()` is attempted, so a
negative key can never be inserted. -/
theorem claim10_keys_nonneg (rows : List (String × String)) (k : Int)
    (h : (dget (build_port_protocol_dict [] rows) k).isSome = true) :
    0 ≤ k :=
  build_keys_nonneg rows [] (fun k2 hk2 => by simp [dget] at hk2) k h

/-- Witness for C10 at a concrete table: key 17 is present and
non-negative. -/
theorem claim10_witness :
    (dget (build_port_protocol_dict []
      [("6", "TCP"), ("17", "UDP"), ("146-252", "x"), ("-1", "neg")])
      17).isSome = true ∧ (0 : Int) ≤ 17 :=
  ⟨by decide, claim10_keys_nonneg
    [("6", "TCP"), ("17", "UDP"), ("146-252", "x"), ("-1", "neg")] 17
    (by decide)⟩

/-- C9: after `process_flow_logs` consumes a file, the sum of all tag
counts equals the sum of all port/protocol counts, both equal the number
of lines the validator accepted, and every stored count is positive. -/
theorem claim9_count_invariants (pd : List (Int × String))
    (lt : List ((Int × String) × String)) (lines : List String) :
    sumVals (process_flow_logs pd lt lines).1 = acceptedCount pd lines ∧
    sumVals (process_flow_logs pd lt lines).2 = acceptedCount pd lines ∧
    (∀ t c, dget (process_flow_logs pd lt lines).1 t = some c → 0 < c) ∧
    (∀ k c, dget (process_flow_logs pd lt lines).2 k = some c → 0 < c) := by
  unfold process_flow_logs
  refine ⟨?_, ?_, ?_, ?_⟩
  · rw [process_foldl_tag_sum]
    simp [sumVals]
  · rw [process_foldl_ppc_sum]
    simp [sumVals]
  · exact process_foldl_tag_pos pd lt lines ([], [])
      (fun t c hc => by simp [dget] at hc)
  · exact process_foldl_ppc_pos pd lt lines ([], [])
      (fun k c hc => by simp [dget] at hc)

/-- Witness for C9 at a concrete run: the stored count 1 is positive. -/
theorem claim9_witness :
    dget (process_flow_logs pdTcp [] [lineValid4]).1 "untagged" = some 1 ∧
    0 < 1 :=
  ⟨by decide,
    (claim9_count_invariants pdTcp [] [lineValid4]).2.2.1 "untagged" 1
      (by decide)⟩

/-- C8: a valid record whose `(dstport, protocol)` pair is absent from
the lookup table resolves to the sentinel tag `"untagged"` and bumps
`TagCounts["untagged"]` by exactly one; the step is a total function, so
the miss can never raise. -/
theorem claim8_untagged_fallback (pd : List (Int × String))
    (lt : List ((Int × String) × String)) (tc : List (String × Nat))
    (ppc : List ((Int × String) × Nat)) (line : String)
    (hv : (validate_flow_log_entry pd line).1 = true)
    (hmiss : dget lt ((pyIntParse ((pySplit line).getD 6 "")).getD 0,
      resolveProtocol pd
        ((pyIntParse ((pySplit line).getD 7 "")).getD 0)) = none) :
    resolveTag lt ((pyIntParse ((pySplit line).getD 6 "")).getD 0,
      resolveProtocol pd
        ((pyIntParse ((pySplit line).getD 7 "")).getD 0)) = "untagged" ∧
    dget (process_step pd lt (tc, ppc) line).1 "untagged" =
      some ((dget tc "untagged").getD 0 + 1) := by
  have htag : resolveTag lt
      ((pyIntParse ((pySplit line).getD 6 "")).getD 0,
        resolveProtocol pd
          ((pyIntParse ((pySplit line).getD 7 "")).getD 0)) = "untagged" := by
    unfold resolveTag
    rw [hmiss]
    rfl
  refine ⟨htag, ?_⟩
  rw [process_step_tag pd lt (tc, ppc) line hv, htag, dget_dinsert,
    if_pos rfl]

/-- Witness for C8 at a concrete valid line and empty lookup table. -/
theorem claim8_witness :
    resolveTag [] ((pyIntParse ((pySplit lineValid3).getD 6 "")).getD 0,
      resolveProtocol pdTcp
        ((pyIntParse ((pySplit lineValid3).getD 7 "")).getD 0)) =
      "untagged" ∧
    dget (process_step pdTcp [] ([], []) lineValid3).1 "untagged" =
      some ((dget ([] : List (String × Nat)) "untagged").getD 0 + 1) :=
  claim8_untagged_fallback pdTcp [] [] [] lineValid3 (by decide) (by decide)

/-- C2: every line the validator accepts has a protocol number (field 7)
that is a key of the protocol table built by the loader, so the
`'unknown'` fallback of the aggregation phase is unreachable and the
resolved protocol name is exactly the table's value for that key. -/
theorem claim2_protocol_known (rows : List (String × String))
    (line : String)
    (hv : (validate_flow_log_entry (build_port_protocol_dict [] rows)
      line).1 = true) :
    ∃ (n : Int) (v : String),
      pyIntParse ((pySplit line).getD 7 "") = some n ∧
      dget (build_port_protocol_dict [] rows) n = some v ∧
      resolveProtocol (build_port_protocol_dict [] rows) n = v := by
  obtain ⟨s, hb⟩ := validate_true_body _ line hv
  have hproto : ruleProtocol (build_port_protocol_dict [] rows)
      (pySplit (pyStrip line)) := vf_true_protocol _ _ s hb
  obtain ⟨n, hn, hk⟩ := hproto
  rw [pySplit_pyStrip] at hn
  obtain ⟨v, hvv⟩ := Option.isSome_iff_exists.mp hk
  refine ⟨n, v, hn, hvv, ?_⟩
  unfold resolveProtocol
  rw [hvv]
  simp only [Option.getD_some]
  exact build_values_lower rows []
    (fun k2 v2 hk2 => by simp [dget] at hk2) n v hvv

/-- Witness for C2 at a concrete loader-built table and valid line. -/
theorem claim2_witness :
    ∃ (n : Int) (v : String),
      pyIntParse ((pySplit lineValid2).getD 7 "") = some n ∧
      dget (build_port_protocol_dict [] [("6", "TCP")]) n = some v ∧
      resolveProtocol (build_port_protocol_dict [] [("6", "TCP")]) n = v :=
  claim2_protocol_known [("6", "TCP")] lineValid2 (by decide)

/-- C5: the validator is a total function returning a (Boolean, reason)
pair by construction, and whenever its body raises (is `Except.error`),
the exception is converted into an Invalid result whose message contains
the underlying cause as a substring. -/
theorem claim5_exception_contained (pd : List (Int × String))
    (entry c : String) (h : validate_body pd entry = Except.error c) :
    (validate_flow_log_entry pd entry).1 = false ∧
    hasSubstr (validate_flow_log_entry pd entry).2 c = true := by
  unfold validate_flow_log_entry
  rw [h]
  exact ⟨rfl, hasSubstr_append "Error in flow log validation: " c⟩

/-- Witness for C5 at a concrete line whose byte count is not an
integer. -/
theorem claim5_witness :
    (validate_flow_log_entry pdTcp lineBadBytes).1 = false ∧
    hasSubstr (validate_flow_log_entry pdTcp lineBadBytes).2
      "invalid literal for int() with base 10: 'zz'" = true :=
  claim5_exception_contained pdTcp lineBadBytes
    "invalid literal for int() with base 10: 'zz'" rfl

/-- C1 (counterexample): `lineBadSrcport` has 14 fields and violates
exactly one rule — rule 6, through a source port that does not parse as
an integer — yet the validator's reason is not the stated
"Invalid port number" (it is the generic validation-error message). -/
theorem claim1_counterexample :
    (pySplit (pyStrip lineBadSrcport)).length = 14 ∧
    ruleVersion (pySplit (pyStrip lineBadSrcport)) ∧
    ruleAccount (pySplit (pyStrip lineBadSrcport)) ∧
    ruleInterface (pySplit (pyStrip lineBadSrcport)) ∧
    ruleIPs (pySplit (pyStrip lineBadSrcport)) ∧
    ¬rulePorts (pySplit (pyStrip lineBadSrcport)) ∧
    ruleProtocol pdTcp (pySplit (pyStrip lineBadSrcport)) ∧
    ruleCounts (pySplit (pyStrip lineBadSrcport)) ∧
    ruleTimestamps (pySplit (pyStrip lineBadSrcport)) ∧
    ruleAction (pySplit (pyStrip lineBadSrcport)) ∧
    ruleStatus (pySplit (pyStrip lineBadSrcport)) ∧
    (validate_flow_log_entry pdTcp lineBadSrcport).1 = false ∧
    (validate_flow_log_entry pdTcp lineBadSrcport).2 ≠
      "Invalid port number" := by
  decide

/-- C1 (amended): a 14-field line satisfying all eleven rules is Valid;
a line violating exactly one rule is Invalid with that rule's stated
reason, except that a port, protocol, packet-count or byte-count field
that does not parse as an integer at all yields the generic
`"Error in flow log validation: ..."` reason naming the unparsable
field instead of the rule's stated reason. -/
theorem claim1_amended (pd : List (Int × String)) (entry : String)
    (fields : List String) (hf : pySplit (pyStrip entry) = fields) :
    (fields.length = 14 → ruleVersion fields → ruleAccount fields →
      ruleInterface fields → ruleIPs fields → rulePorts fields →
      ruleProtocol pd fields → ruleCounts fields → ruleTimestamps fields →
      ruleAction fields → ruleStatus fields →
      validate_flow_log_entry pd entry = (true, "Valid entry")) ∧
    (fields.length ≠ 14 →
      validate_flow_log_entry pd entry =
        (false, "Incorrect number of fields")) ∧
    (fields.length = 14 → ¬ruleVersion fields →
      validate_flow_log_entry pd entry = (false, "Invalid version")) ∧
    (fields.length = 14 → ruleVersion fields → ¬ruleAccount fields →
      validate_flow_log_entry pd entry = (false, "Invalid account ID")) ∧
    (fields.length = 14 → ruleVersion fields → ruleAccount fields →
      ¬ruleInterface fields →
      validate_flow_log_entry pd entry = (false, "Invalid interface ID")) ∧
    (fields.length = 14 → ruleVersion fields → ruleAccount fields →
      ruleInterface fields → ¬ruleIPs fields →
      validate_flow_log_entry pd entry = (false, "Invalid IP address")) ∧
    (fields.length = 14 → ruleVersion fields → ruleAccount fields →
      ruleInterface fields → ruleIPs fields →
      ∀ n : Int, pyIntParse (fields.getD 5 "") = some n →
      ¬(0 ≤ n ∧ n ≤ 65535) →
      validate_flow_log_entry pd entry = (false, "Invalid port number")) ∧
    (fields.length = 14 → ruleVersion fields → ruleAccount fields →
      ruleInterface fields → ruleIPs fields →
      ∀ n m : Int, pyIntParse (fields.getD 5 "") = some n →
      0 ≤ n ∧ n ≤ 65535 → pyIntParse (fields.getD 6 "") = some m →
      ¬(0 ≤ m ∧ m ≤ 65535) →
      validate_flow_log_entry pd entry = (false, "Invalid port number")) ∧
    (fields.length = 14 → ruleVersion fields → ruleAccount fields →
      ruleInterface fields → ruleIPs fields →
      pyIntParse (fields.getD 5 "") = none →
      validate_flow_log_entry pd entry =
        (false, genericReason (fields.getD 5 ""))) ∧
    (fields.length = 14 → ruleVersion fields → ruleAccount fields →
      ruleInterface fields → ruleIPs fields →
      ∀ n : Int, pyIntParse (fields.getD 5 "") = some n →
      0 ≤ n ∧ n ≤ 65535 → pyIntParse (fields.getD 6 "") = none →
      validate_flow_log_entry pd entry =
        (false, genericReason (fields.getD 6 ""))) ∧
    (fields.length = 14 → ruleVersion fields → ruleAccount fields →
      ruleInterface fields → ruleIPs fields → rulePorts fields →
      ∀ n : Int, pyIntParse (fields.getD 7 "") = some n →
      (dget pd n).isSome = false →
      validate_flow_log_entry pd entry = (false, "Invalid protocol")) ∧
    (fields.length = 14 → ruleVersion fields → ruleAccount fields →
      ruleInterface fields → ruleIPs fields → rulePorts fields →
      pyIntParse (fields.getD 7 "") = none →
      validate_flow_log_entry pd entry =
        (false, genericReason (fields.getD 7 ""))) ∧
    (fields.length = 14 → ruleVersion fields → ruleAccount fields →
      ruleInterface fields → ruleIPs fields → rulePorts fields →
      ruleProtocol pd fields →
      ∀ n : Int, pyIntParse (fields.getD 8 "") = some n → n < 0 →
      validate_flow_log_entry pd entry =
        (false, "Invalid packets or bytes count")) ∧
    (fields.length = 14 → ruleVersion fields → ruleAccount fields →
      ruleInterface fields → ruleIPs fields → rulePorts fields →
      ruleProtocol pd fields →
      ∀ n m : Int, pyIntParse (fields.getD 8 "") = some n → 0 ≤ n →
      pyIntParse (fields.getD 9 "") = some m → m < 0 →
      validate_flow_log_entry pd entry =
        (false, "Invalid packets or bytes count")) ∧
    (fields.length = 14 → ruleVersion fields → ruleAccount fields →
      ruleInterface fields → ruleIPs fields → rulePorts fields →
      ruleProtocol pd fields →
      pyIntParse (fields.getD 8 "") = none →
      validate_flow_log_entry pd entry =
        (false, genericReason (fields.getD 8 ""))) ∧
    (fields.length = 14 → ruleVersion fields → ruleAccount fields →
      ruleInterface fields → ruleIPs fields → rulePorts fields →
      ruleProtocol pd fields →
      ∀ n : Int, pyIntParse (fields.getD 8 "") = some n → 0 ≤ n →
      pyIntParse (fields.getD 9 "") = none →
      validate_flow_log_entry pd entry =
        (false, genericReason (fields.getD 9 ""))) ∧
    (fields.length = 14 → ruleVersion fields → ruleAccount fields →
      ruleInterface fields → ruleIPs fields → rulePorts fields →
      ruleProtocol pd fields → ruleCounts fields →
      ¬ruleTimestamps fields →
      validate_flow_log_entry pd entry = (false, "Invalid timestamps")) ∧
    (fields.length = 14 → ruleVersion fields → ruleAccount fields →
      ruleInterface fields → ruleIPs fields → rulePorts fields →
      ruleProtocol pd fields → ruleCounts fields → ruleTimestamps fields →
      ¬ruleAction fields →
      validate_flow_log_entry pd entry = (false, "Invalid action")) ∧
    (fields.length = 14 → ruleVersion fields → ruleAccount fields →
      ruleInterface fields → ruleIPs fields → rulePorts fields →
      ruleProtocol pd fields → ruleCounts fields → ruleTimestamps fields →
      ruleAction fields → ¬ruleStatus fields →
      validate_flow_log_entry pd entry = (false, "Invalid log status")) := by
  refine ⟨?_, ?_, ?_, ?_, ?_, ?_, ?_, ?_, ?_, ?_, ?_, ?_, ?_, ?_, ?_, ?_,
    ?_, ?_, ?_⟩
  · intro h14 hV hA hI hIP hP hPr hC hT hAct hSt
    obtain ⟨h3a, h3b⟩ := hA
    obtain ⟨h4a, h4b⟩ := hI
    obtain ⟨h5a, h5b⟩ := hIP
    obtain ⟨⟨sp, hsp, hsp1, hsp2⟩, ⟨dp, hdp, hdp1, hdp2⟩⟩ := hP
    obtain ⟨pr, hpr, hk⟩ := hPr
    obtain ⟨⟨pk, hpk, hpk0⟩, ⟨bk, hbk, hbk0⟩⟩ := hC
    obtain ⟨h10, h11, hcmp⟩ := hT
    exact validate_of_ok pd entry _ (by
      rw [hf]
      exact vf_ok pd fields h14 hV h3a h3b h4a h4b h5a h5b sp hsp hsp1
        hsp2 dp hdp hdp1 hdp2 pr hpr hk pk hpk hpk0 bk hbk hbk0 h10 h11
        hcmp hAct hSt)
  · intro h
    exact validate_of_ok pd entry _ (by rw [hf]; exact vf_len pd fields h)
  · intro h14 h
    exact validate_of_ok pd entry _ (by
      rw [hf]; exact vf_version pd fields h14 h)
  · intro h14 hV h
    exact validate_of_ok pd entry _ (by
      rw [hf]; exact vf_account pd fields h14 hV h)
  · intro h14 hV hA h
    obtain ⟨h3a, h3b⟩ := hA
    exact validate_of_ok pd entry _ (by
      rw [hf]; exact vf_interface pd fields h14 hV h3a h3b h)
  · intro h14 hV hA hI h
    obtain ⟨h3a, h3b⟩ := hA
    obtain ⟨h4a, h4b⟩ := hI
    exact validate_of_ok pd entry _ (by
      rw [hf]; exact vf_ip pd fields h14 hV h3a h3b h4a h4b h)
  · intro h14 hV hA hI hIP n hn hnr
    obtain ⟨h3a, h3b⟩ := hA
    obtain ⟨h4a, h4b⟩ := hI
    obtain ⟨h5a, h5b⟩ := hIP
    exact validate_of_ok pd entry _ (by
      rw [hf]
      exact vf_srcport_range pd fields h14 hV h3a h3b h4a h4b h5a h5b
        n hn hnr)
  · intro h14 hV hA hI hIP n m hn hnr hm hmr
    obtain ⟨h3a, h3b⟩ := hA
    obtain ⟨h4a, h4b⟩ := hI
    obtain ⟨h5a, h5b⟩ := hIP
    exact validate_of_ok pd entry _ (by
      rw [hf]
      exact vf_dstport_range pd fields h14 hV h3a h3b h4a h4b h5a h5b
        n hn hnr.1 hnr.2 m hm hmr)
  · intro h14 hV hA hI hIP hn
    obtain ⟨h3a, h3b⟩ := hA
    obtain ⟨h4a, h4b⟩ := hI
    obtain ⟨h5a, h5b⟩ := hIP
    exact validate_of_err pd entry _ (by
      rw [hf]
      exact vf_srcport_err pd fields h14 hV h3a h3b h4a h4b h5a h5b hn)
  · intro h14 hV hA hI hIP n hn hnr hm
    obtain ⟨h3a, h3b⟩ := hA
    obtain ⟨h4a, h4b⟩ := hI
    obtain ⟨h5a, h5b⟩ := hIP
    exact validate_of_err pd entry _ (by
      rw [hf]
      exact vf_dstport_err pd fields h14 hV h3a h3b h4a h4b h5a h5b
        n hn hnr.1 hnr.2 hm)
  · intro h14 hV hA hI hIP hP n hn hk
    obtain ⟨h3a, h3b⟩ := hA
    obtain ⟨h4a, h4b⟩ := hI
    obtain ⟨h5a, h5b⟩ := hIP
    obtain ⟨⟨sp, hsp, hsp1, hsp2⟩, ⟨dp, hdp, hdp1, hdp2⟩⟩ := hP
    exact validate_of_ok pd entry _ (by
      rw [hf]
      exact vf_proto_missing pd fields h14 hV h3a h3b h4a h4b h5a h5b
        sp hsp hsp1 hsp2 dp hdp hdp1 hdp2 n hn hk)
  · intro h14 hV hA hI hIP hP hn
    obtain ⟨h3a, h3b⟩ := hA
    obtain ⟨h4a, h4b⟩ := hI
    obtain ⟨h5a, h5b⟩ := hIP
    obtain ⟨⟨sp, hsp, hsp1, hsp2⟩, ⟨dp, hdp, hdp1, hdp2⟩⟩ := hP
    exact validate_of_err pd entry _ (by
      rw [hf]
      exact vf_proto_err pd fields h14 hV h3a h3b h4a h4b h5a h5b
        sp hsp hsp1 hsp2 dp hdp hdp1 hdp2 hn)
  · intro h14 hV hA hI hIP hP hPr n hn hneg
    obtain ⟨h3a, h3b⟩ := hA
    obtain ⟨h4a, h4b⟩ := hI
    obtain ⟨h5a, h5b⟩ := hIP
    obtain ⟨⟨sp, hsp, hsp1, hsp2⟩, ⟨dp, hdp, hdp1, hdp2⟩⟩ := hP
    obtain ⟨pr, hpr, hk⟩ := hPr
    exact validate_of_ok pd entry _ (by
      rw [hf]
      exact vf_packets_neg pd fields h14 hV h3a h3b h4a h4b h5a h5b
        sp hsp hsp1 hsp2 dp hdp hdp1 hdp2 pr hpr hk n hn hneg)
  · intro h14 hV hA hI hIP hP hPr n m hn hn0 hm hneg
    obtain ⟨h3a, h3b⟩ := hA
    obtain ⟨h4a, h4b⟩ := hI
    obtain ⟨h5a, h5b⟩ := hIP
    obtain ⟨⟨sp, hsp, hsp1, hsp2⟩, ⟨dp, hdp, hdp1, hdp2⟩⟩ := hP
    obtain ⟨pr, hpr, hk⟩ := hPr
    exact validate_of_ok pd entry _ (by
      rw [hf]
      exact vf_bytes_neg pd fields h14 hV h3a h3b h4a h4b h5a h5b
        sp hsp hsp1 hsp2 dp hdp hdp1 hdp2 pr hpr hk n hn hn0 m hm hneg)
  · intro h14 hV hA hI hIP hP hPr hn
    obtain ⟨h3a, h3b⟩ := hA
    obtain ⟨h4a, h4b⟩ := hI
    obtain ⟨h5a, h5b⟩ := hIP
    obtain ⟨⟨sp, hsp, hsp1, hsp2⟩, ⟨dp, hdp, hdp1, hdp2⟩⟩ := hP
    obtain ⟨pr, hpr, hk⟩ := hPr
    exact validate_of_err pd entry _ (by
      rw [hf]
      exact vf_packets_err pd fields h14 hV h3a h3b h4a h4b h5a h5b
        sp hsp hsp1 hsp2 dp hdp hdp1 hdp2 pr hpr hk hn)
  · intro h14 hV hA hI hIP hP hPr n hn hn0 hm
    obtain ⟨h3a, h3b⟩ := hA
    obtain ⟨h4a, h4b⟩ := hI
    obtain ⟨h5a, h5b⟩ := hIP
    obtain ⟨⟨sp, hsp, hsp1, hsp2⟩, ⟨dp, hdp, hdp1, hdp2⟩⟩ := hP
    obtain ⟨pr, hpr, hk⟩ := hPr
    exact validate_of_err pd entry _ (by
      rw [hf]
      exact vf_bytes_err pd fields h14 hV h3a h3b h4a h4b h5a h5b
        sp hsp hsp1 hsp2 dp hdp hdp1 hdp2 pr hpr hk n hn hn0 hm)
  · intro h14 hV hA hI hIP hP hPr hC h
    obtain ⟨h3a, h3b⟩ := hA
    obtain ⟨h4a, h4b⟩ := hI
    obtain ⟨h5a, h5b⟩ := hIP
    obtain ⟨⟨sp, hsp, hsp1, hsp2⟩, ⟨dp, hdp, hdp1, hdp2⟩⟩ := hP
    obtain ⟨pr, hpr, hk⟩ := hPr
    obtain ⟨⟨pk, hpk, hpk0⟩, ⟨bk, hbk, hbk0⟩⟩ := hC
    exact validate_of_ok pd entry _ (by
      rw [hf]
      exact vf_timestamps pd fields h14 hV h3a h3b h4a h4b h5a h5b
        sp hsp hsp1 hsp2 dp hdp hdp1 hdp2 pr hpr hk pk hpk hpk0 bk hbk
        hbk0 h)
  · intro h14 hV hA hI hIP hP hPr hC hT h
    obtain ⟨h3a, h3b⟩ := hA
    obtain ⟨h4a, h4b⟩ := hI
    obtain ⟨h5a, h5b⟩ := hIP
    obtain ⟨⟨sp, hsp, hsp1, hsp2⟩, ⟨dp, hdp, hdp1, hdp2⟩⟩ := hP
    obtain ⟨pr, hpr, hk⟩ := hPr
    obtain ⟨⟨pk, hpk, hpk0⟩, ⟨bk, hbk, hbk0⟩⟩ := hC
    obtain ⟨h10, h11, hcmp⟩ := hT
    exact validate_of_ok pd entry _ (by
      rw [hf]
      exact vf_action pd fields h14 hV h3a h3b h4a h4b h5a h5b
        sp hsp hsp1 hsp2 dp hdp hdp1 hdp2 pr hpr hk pk hpk hpk0 bk hbk
        hbk0 h10 h11 hcmp h)
  · intro h14 hV hA hI hIP hP hPr hC hT hAct h
    obtain ⟨h3a, h3b⟩ := hA
    obtain ⟨h4a, h4b⟩ := hI
    obtain ⟨h5a, h5b⟩ := hIP
    obtain ⟨⟨sp, hsp, hsp1, hsp2⟩, ⟨dp, hdp, hdp1, hdp2⟩⟩ := hP
    obtain ⟨pr, hpr, hk⟩ := hPr
    obtain ⟨⟨pk, hpk, hpk0⟩, ⟨bk, hbk, hbk0⟩⟩ := hC
    obtain ⟨h10, h11, hcmp⟩ := hT
    exact validate_of_ok pd entry _ (by
      rw [hf]
      exact vf_status pd fields h14 hV h3a h3b h4a h4b h5a h5b
        sp hsp hsp1 hsp2 dp hdp hdp1 hdp2 pr hpr hk pk hpk hpk0 bk hbk
        hbk0 h10 h11 hcmp hAct h)

/-- Witness for C1 (amended), Valid direction, at a concrete line
satisfying all eleven rules. -/
theorem claim1_witness :
    validate_flow_log_entry pdTcp lineValid = (true, "Valid entry") :=
  (claim1_amended pdTcp lineValid (pySplit (pyStrip lineValid)) rfl).1
    (by decide) (by decide) (by decide) (by decide) (by decide) (by decide)
    (by decide) (by decide) (by decide) (by decide) (by decide)

/-- C3 (counterexample): `lineBadDstport` has 14 fields, all earlier
rules pass, and its destination port does not parse as an integer in
[0, 65535] — yet the validator's reason is not "Invalid port number"
(the failed `int()` escapes to the generic `except` clause). -/
theorem claim3_counterexample :
    (pySplit (pyStrip lineBadDstport)).length = 14 ∧
    ruleVersion (pySplit (pyStrip lineBadDstport)) ∧
    ruleAccount (pySplit (pyStrip lineBadDstport)) ∧
    ruleInterface (pySplit (pyStrip lineBadDstport)) ∧
    ruleIPs (pySplit (pyStrip lineBadDstport)) ∧
    ¬intInRange ((pySplit (pyStrip lineBadDstport)).getD 6 "") ∧
    (validate_flow_log_entry pdTcp lineBadDstport).1 = false ∧
    (validate_flow_log_entry pdTcp lineBadDstport).2 ≠
      "Invalid port number" := by
  decide

/-- C3 (amended): on a 14-field line whose earlier rules (version,
account id, interface id, IP addresses) pass, a port field that parses
as an integer outside [0, 65535] yields Invalid with "Invalid port
number"; a port field that does not parse as an integer at all yields
Invalid with the generic validation-error reason naming that field. -/
theorem claim3_amended (pd : List (Int × String)) (entry : String)
    (fields : List String) (hf : pySplit (pyStrip entry) = fields)
    (h14 : fields.length = 14) (hV : ruleVersion fields)
    (hA : ruleAccount fields) (hI : ruleInterface fields)
    (hIP : ruleIPs fields) :
    (∀ n : Int, pyIntParse (fields.getD 5 "") = some n →
      ¬(0 ≤ n ∧ n ≤ 65535) →
      validate_flow_log_entry pd entry = (false, "Invalid port number")) ∧
    (∀ n m : Int, pyIntParse (fields.getD 5 "") = some n →
      0 ≤ n ∧ n ≤ 65535 → pyIntParse (fields.getD 6 "") = some m →
      ¬(0 ≤ m ∧ m ≤ 65535) →
      validate_flow_log_entry pd entry = (false, "Invalid port number")) ∧
    (pyIntParse (fields.getD 5 "") = none →
      validate_flow_log_entry pd entry =
        (false, genericReason (fields.getD 5 ""))) ∧
    (∀ n : Int, pyIntParse (fields.getD 5 "") = some n →
      0 ≤ n ∧ n ≤ 65535 → pyIntParse (fields.getD 6 "") = none →
      validate_flow_log_entry pd entry =
        (false, genericReason (fields.getD 6 ""))) := by
  obtain ⟨h3a, h3b⟩ := hA
  obtain ⟨h4a, h4b⟩ := hI
  obtain ⟨h5a, h5b⟩ := hIP
  refine ⟨?_, ?_, ?_, ?_⟩
  · intro n hn hnr
    exact validate_of_ok pd entry _ (by
      rw [hf]
      exact vf_srcport_range pd fields h14 hV h3a h3b h4a h4b h5a h5b
        n hn hnr)
  · intro n m hn hnr hm hmr
    exact validate_of_ok pd entry _ (by
      rw [hf]
      exact vf_dstport_range pd fields h14 hV h3a h3b h4a h4b h5a h5b
        n hn hnr.1 hnr.2 m hm hmr)
  · intro hn
    exact validate_of_err pd entry _ (by
      rw [hf]
      exact vf_srcport_err pd fields h14 hV h3a h3b h4a h4b h5a h5b hn)
  · intro n hn hnr hm
    exact validate_of_err pd entry _ (by
      rw [hf]
      exact vf_dstport_err pd fields h14 hV h3a h3b h4a h4b h5a h5b
        n hn hnr.1 hnr.2 hm)

/-- Witness for C3 (amended) at a concrete line whose destination port
is the out-of-range 70000. -/
theorem claim3_witness :
    validate_flow_log_entry pdTcp lineDstportRange =
      (false, "Invalid port number") :=
  ((claim3_amended pdTcp lineDstportRange
      (pySplit (pyStrip lineDstportRange)) rfl (by decide) (by decide)
      (by decide) (by decide) (by decide)).2.1) 1024 70000 (by decide)
    (by decide) (by decide) (by decide)

/-- C4 (counterexample): `lineBadPackets` has 14 fields, all earlier
rules pass, and its packet count does not parse as a non-negative
integer — yet the validator's reason is not "Invalid packets or bytes
count" (the failed `int()` escapes to the generic `except` clause). -/
theorem claim4_counterexample :
    (pySplit (pyStrip lineBadPackets)).length = 14 ∧
    ruleVersion (pySplit (pyStrip lineBadPackets)) ∧
    ruleAccount (pySplit (pyStrip lineBadPackets)) ∧
    ruleInterface (pySplit (pyStrip lineBadPackets)) ∧
    ruleIPs (pySplit (pyStrip lineBadPackets)) ∧
    rulePorts (pySplit (pyStrip lineBadPackets)) ∧
    ruleProtocol pdTcp (pySplit (pyStrip lineBadPackets)) ∧
    ¬nonNegInt ((pySplit (pyStrip lineBadPackets)).getD 8 "") ∧
    (validate_flow_log_entry pdTcp lineBadPackets).1 = false ∧
    (validate_flow_log_entry pdTcp lineBadPackets).2 ≠
      "Invalid packets or bytes count" := by
  decide

/-- C4 (amended): on a 14-field line whose earlier rules (through the
protocol rule) pass, a packet or byte count that parses as a negative
integer yields Invalid with "Invalid packets or bytes count"; a count
field that does not parse as an integer at all yields Invalid with the
generic validation-error reason naming that field. -/
theorem claim4_amended (pd : List (Int × String)) (entry : String)
    (fields : List String) (hf : pySplit (pyStrip entry) = fields)
    (h14 : fields.length = 14) (hV : ruleVersion fields)
    (hA : ruleAccount fields) (hI : ruleInterface fields)
    (hIP : ruleIPs fields) (hP : rulePorts fields)
    (hPr : ruleProtocol pd fields) :
    (∀ n : Int, pyIntParse (fields.getD 8 "") = some n → n < 0 →
      validate_flow_log_entry pd entry =
        (false, "Invalid packets or bytes count")) ∧
    (∀ n m : Int, pyIntParse (fields.getD 8 "") = some n → 0 ≤ n →
      pyIntParse (fields.getD 9 "") = some m → m < 0 →
      validate_flow_log_entry pd entry =
        (false, "Invalid packets or bytes count")) ∧
    (pyIntParse (fields.getD 8 "") = none →
      validate_flow_log_entry pd entry =
        (false, genericReason (fields.getD 8 ""))) ∧
    (∀ n : Int, pyIntParse (fields.getD 8 "") = some n → 0 ≤ n →
      pyIntParse (fields.getD 9 "") = none →
      validate_flow_log_entry pd entry =
        (false, genericReason (fields.getD 9 ""))) := by
  obtain ⟨h3a, h3b⟩ := hA
  obtain ⟨h4a, h4b⟩ := hI
  obtain ⟨h5a, h5b⟩ := hIP
  obtain ⟨⟨sp, hsp, hsp1, hsp2⟩, ⟨dp, hdp, hdp1, hdp2⟩⟩ := hP
  obtain ⟨pr, hpr, hk⟩ := hPr
  refine ⟨?_, ?_, ?_, ?_⟩
  · intro n hn hneg
    exact validate_of_ok pd entry _ (by
      rw [hf]
      exact vf_packets_neg pd fields h14 hV h3a h3b h4a h4b h5a h5b
        sp hsp hsp1 hsp2 dp hdp hdp1 hdp2 pr hpr hk n hn hneg)
  · intro n m hn hn0 hm hneg
    exact validate_of_ok pd entry _ (by
      rw [hf]
      exact vf_bytes_neg pd fields h14 hV h3a h3b h4a h4b h5a h5b
        sp hsp hsp1 hsp2 dp hdp hdp1 hdp2 pr hpr hk n hn hn0 m hm hneg)
  · intro hn
    exact validate_of_err pd entry _ (by
      rw [hf]
      exact vf_packets_err pd fields h14 hV h3a h3b h4a h4b h5a h5b
        sp hsp hsp1 hsp2 dp hdp hdp1 hdp2 pr hpr hk hn)
  · intro n hn hn0 hm
    exact validate_of_err pd entry _ (by
      rw [hf]
      exact vf_bytes_err pd fields h14 hV h3a h3b h4a h4b h5a h5b
        sp hsp hsp1 hsp2 dp hdp hdp1 hdp2 pr hpr hk n hn hn0 hm)

/-- Witness for C4 (amended) at a concrete line whose packet count is
the negative integer -3. -/
theorem claim4_witness :
    validate_flow_log_entry pdTcp linePacketsNeg =
      (false, "Invalid packets or bytes count") :=
  ((claim4_amended pdTcp linePacketsNeg
      (pySplit (pyStrip linePacketsNeg)) rfl (by decide) (by decide)
      (by decide) (by decide) (by decide) (by decide) (by decide)).1)
    (-3) (by decide) (by decide)

end FlowLog




